import Mathlib

/-!
Verification of the ScrAI phase coordinator, entity store and notification
fan-out (a shallow embedding of `src/scrai`).

Conventions of the embedding:
* Python dicts keyed by strings become association lists `List (String × α)`;
  `putAssoc` mirrors `d[k] = v` (replace in place, append if new) and
  `getAssoc` mirrors `d.get(k)`.
* `datetime` timestamps (`created_at`, `updated_at`, ...) are real-time values
  and are not modelled; no verified property observes them.
* Asynchronous methods become pure functions threading the store state;
  exceptions become `Except` results.
-/

namespace ScrAI

/-- `d.get(k)` on a Python dict modelled as an association list. -/
def getAssoc {α : Type} (l : List (String × α)) (k : String) : Option α :=
  match l with
  | [] => none
  | (k', v) :: rest => if k' = k then some v else getAssoc rest k

/-- `d[k] = v` on a Python dict: replace the existing entry in place,
append at the end if the key is new (insertion-order semantics). -/
def putAssoc {α : Type} (l : List (String × α)) (k : String) (v : α) :
    List (String × α) :=
  match l with
  | [] => [(k, v)]
  | (k', v') :: rest =>
      if k' = k then (k, v) :: rest else (k', v') :: putAssoc rest k v

/-- `d.pop(k)`: remove the key entirely (a Python dict holds a key at most
once, so removing every occurrence is its exact semantics). -/
def delAssoc {α : Type} (l : List (String × α)) (k : String) :
    List (String × α) :=
  l.filter (fun kv => kv.1 ≠ k)

theorem getAssoc_putAssoc_self {α : Type} (l : List (String × α)) (k : String)
    (v : α) : getAssoc (putAssoc l k v) k = some v := by
  induction l with
  | nil => simp [putAssoc, getAssoc]
  | cons hd tl ih =>
      by_cases h : hd.1 = k
      · simp [putAssoc, getAssoc, h]
      · simp [putAssoc, getAssoc, h, ih]

theorem getAssoc_putAssoc_ne {α : Type} (l : List (String × α)) (k k' : String)
    (v : α) (h : k' ≠ k) : getAssoc (putAssoc l k v) k' = getAssoc l k' := by
  induction l with
  | nil => simp [putAssoc, getAssoc, Ne.symm h]
  | cons hd tl ih =>
      by_cases hh : hd.1 = k
      · subst hh
        simp [putAssoc, getAssoc, Ne.symm h]
      · simp [putAssoc, getAssoc, hh, ih]

theorem getAssoc_delAssoc_self {α : Type} (l : List (String × α)) (k : String) :
    getAssoc (delAssoc l k) k = none := by
  induction l with
  | nil => simp [delAssoc, getAssoc]
  | cons hd tl ih =>
      by_cases h : hd.1 = k
      · simpa [delAssoc, getAssoc, h] using ih
      · simpa [delAssoc, getAssoc, h] using ih

/-! ## Data model (`models/simulation_state.py`, `models/actor.py`,
`models/event.py`) -/

/-- `SimulationPhase` enum (`models/simulation_state.py`).  The first
phase's constructor carries a prime (`initialize'`); its serialized enum
value stays `"initialize"`. -/
inductive SimulationPhase : Type
  | initialize'
  | event_generation
  | action_collection
  | action_resolution
  | world_update
  | snapshot
  | paused
  | completed
deriving DecidableEq

/-- `SimulationStatus` enum (`models/simulation_state.py`). -/
inductive SimulationStatus : Type
  | created
  | running
  | paused
  | completed
  | error
deriving DecidableEq

/-- `ActorType` enum (`models/actor.py`). -/
inductive ActorType : Type
  | player
  | npc
  | organization
  | entity
deriving DecidableEq

/-- `EventType` enum (`models/event.py`). -/
inductive EventType : Type
  | environmental
  | social
  | economic
  | political
  | system
  | player_action
  | npc_action
deriving DecidableEq

/-- `EventStatus` enum (`models/event.py`). -/
inductive EventStatus : Type
  | pending
  | confirmed
  | resolved
  | cancelled
deriving DecidableEq

/-- Modelled from the spec: `ActionStatus` enum of `models/action.py`, which
is imported throughout the source but absent from `src/`; the spec fixes the
values `pending|approved|executing|completed|cancelled`. -/
inductive ActionStatus : Type
  | pending
  | approved
  | executing
  | completed
  | cancelled
deriving DecidableEq

/-- Modelled from the spec: the `Action` entity of `models/action.py` (absent
from `src/`): "id; actor id; simulation id; type; intent/description text;
priority; status; metadata".  Only the fields consulted by the phase handlers
and the store laws are carried; `Action.complete(outcome, success)` marks the
action completed and records the outcome text and success flag, as the
resolution handler's calls require. -/
structure Action : Type where
  id : String
  actor_id : String
  simulation_id : String
  intent : String
  status : ActionStatus
  outcome : Option String
  success : Option Bool
deriving DecidableEq

/-- Modelled from the spec: `Action.complete(outcome=..., success=...)` as
invoked by `ActionResolutionPhaseHandler.run`. -/
def Action.complete (a : Action) (outcome : String) (success : Bool) : Action :=
  { a with status := ActionStatus.completed,
           outcome := some outcome,
           success := some success }

/-- `Actor` (`models/actor.py`): the fields consulted by the store laws.
The free-form attribute/location/relationship maps are not observed by any
verified property and are omitted. -/
structure Actor : Type where
  id : String
  name : String
  type : ActorType
  active : Bool
deriving DecidableEq

/-- `Event` (`models/event.py`): the fields consulted by the store laws and
handlers.  Scheduling/resolution timestamps and nested parameter maps are not
observed by any verified property and are omitted. -/
structure Event : Type where
  id : String
  title : String
  description : String
  type : EventType
  status : EventStatus
  affected_actors : List String
deriving DecidableEq

/-- `Event.resolve` (`models/event.py` line 98): mark the event resolved. -/
def Event.resolve (e : Event) : Event :=
  { e with status := EventStatus.resolved }

/-- `SimulationState` (`models/simulation_state.py`).  The carried fields are
those consulted by the engine and handlers; `seeded` models the
`metadata["scenario"]["seeded"]` marker and `phase_log` the
`metadata["phase_log"]` entries (each entry's timestamp is dropped).
The `metadata["snapshots"]` history, world-state map and researcher flags are
not observed by any verified property and are omitted. -/
structure SimulationState : Type where
  id : String
  name : String
  status : SimulationStatus
  current_phase : SimulationPhase
  phase_number : Nat
  max_phases : Nat
  scenario_module : String
  active_actor_ids : List String
  pending_event_ids : List String
  pending_action_ids : List String
  snapshot_count : Nat
  seeded : Bool
  phase_log : List (SimulationPhase × List String)
deriving DecidableEq

/-- `SimulationState.start`. -/
def SimulationState.start (s : SimulationState) : SimulationState :=
  { s with status := SimulationStatus.running }

/-- `SimulationState.resume`: only a paused simulation resumes. -/
def SimulationState.resume (s : SimulationState) : SimulationState :=
  if s.status = SimulationStatus.paused then
    { s with status := SimulationStatus.running }
  else s

/-- `SimulationState.complete`: terminal status and phase marker. -/
def SimulationState.complete (s : SimulationState) : SimulationState :=
  { s with status := SimulationStatus.completed,
           current_phase := SimulationPhase.completed }

/-- `SimulationState.record_snapshot`. -/
def SimulationState.record_snapshot (s : SimulationState) : SimulationState :=
  { s with snapshot_count := s.snapshot_count + 1 }

/-- The shared guard of the three list-growing mutators: append only when the
id is not already present. -/
def addUnique (l : List String) (x : String) : List String :=
  if x ∈ l then l else l ++ [x]

/-- `SimulationState.add_actor` (`models/simulation_state.py` lines 167-171). -/
def SimulationState.add_actor (s : SimulationState) (actor_id : String) :
    SimulationState :=
  { s with active_actor_ids := addUnique s.active_actor_ids actor_id }

/-- `SimulationState.add_pending_event` (lines 179-183). -/
def SimulationState.add_pending_event (s : SimulationState) (event_id : String) :
    SimulationState :=
  { s with pending_event_ids := addUnique s.pending_event_ids event_id }

/-- `SimulationState.add_pending_action` (lines 191-195). -/
def SimulationState.add_pending_action (s : SimulationState)
    (action_id : String) : SimulationState :=
  { s with pending_action_ids := addUnique s.pending_action_ids action_id }

/-! ## Phase handlers (`engine/phase_handlers.py`) and the engine
(`engine/phase_engine.py`) -/

/-- `PhaseResult` (`engine/context.py` lines 46-58). -/
structure PhaseResult : Type where
  simulation : SimulationState
  executed_phase : SimulationPhase
  next_phase : SimulationPhase
  generated_event_ids : List String
  generated_action_ids : List String
  notes : List String
deriving DecidableEq

/-- The outcome of `scenario.seed(scenario_context)` during the first
event-generation phase: the ids of the actors and events, and the full
actions, that the scenario placed in the mutable `ScenarioContext`. -/
structure ScenarioSeed : Type where
  actor_ids : List String
  event_ids : List String
  actions : List Action
deriving DecidableEq

/-- One entry of the JSON array parsed from the LLM's action-resolution
reply (`_resolve_actions_with_llm`), with the parse defaults
(`status = "completed"`, `outcome_description = "Action resolved"`) already
folded in. -/
structure Resolution : Type where
  action_id : String
  status : String
  outcome_description : String
deriving DecidableEq

/-- External nondeterminism consumed by one `step`: whether a scenario
service is configured and the requested scenario registered, what the
scenario seeds, whether an LLM service is configured, and the parsed outcome
of each LLM call.  An `Except.error` is a transport failure or a reply whose
JSON could not be parsed — both raise inside the handler's `try` block. -/
structure PhaseEnv : Type where
  scenario : Option (Option ScenarioSeed)
  llm_configured : Bool
  llm_events : Except String (List String)
  llm_resolutions : Except String (List Resolution × List String)

/-- The `actions` collection of the store, keyed by action id. -/
abbrev AStore := List (String × Action)

/-- Fold of `addUnique` over a batch of ids, the cumulative effect of a loop
of `add_actor` / `add_pending_event` / `add_pending_action` calls. -/
def addUniqueList (l : List String) (ids : List String) : List String :=
  ids.foldl addUnique l

/-- `InitializePhaseHandler.run` (`engine/phase_handlers.py` lines 71-91). -/
def initializeRun (sim : SimulationState) : PhaseResult :=
  let startNotes :=
    if sim.status = SimulationStatus.created then ["Simulation started"]
    else if sim.status = SimulationStatus.paused then
      ["Simulation resumed from paused state"]
    else []
  let sim :=
    if sim.status = SimulationStatus.created then sim.start
    else if sim.status = SimulationStatus.paused then sim.resume
    else sim
  let sim := { sim with current_phase := SimulationPhase.initialize' }
  { simulation := sim
    executed_phase := SimulationPhase.initialize'
    next_phase := SimulationPhase.event_generation
    generated_event_ids := []
    generated_action_ids := []
    notes := startNotes ++ ["Initialization phase complete"] }

/-- Store effect of the action loop of `_persist_generated_entities`
(`phase_handlers.py` lines 299-308): set a missing `simulation_id`, then
create the action only when its id does not already exist.  The interleaved
`simulation.add_pending_action` calls act on an independent field and are
applied as one `addUniqueList` by the caller. -/
def seedActionsStore (sim_id : String) (astore : AStore)
    (acts : List Action) : AStore :=
  acts.foldl
    (fun st a =>
      let a :=
        if a.simulation_id = "" then { a with simulation_id := sim_id } else a
      if (getAssoc st a.id).isSome then st else putAssoc st a.id a)
    astore

/-- `EventGenerationPhaseHandler.run` (lines 97-163) together with
`_generate_events_with_llm` (lines 165-222, reduced to its parsed outcome
`env.llm_events`) and `_persist_generated_entities` (lines 275-310).  The
actor/event repository writes of newly generated entities are not observed by
any verified property and are not carried; their registration on the
simulation's id lists is. -/
def eventGenerationRun (sim : SimulationState) (astore : AStore)
    (env : PhaseEnv) : PhaseResult × AStore :=
  match env.scenario with
  | none =>
      ({ simulation := sim
         executed_phase := SimulationPhase.event_generation
         next_phase := SimulationPhase.action_collection
         generated_event_ids := []
         generated_action_ids := []
         notes := ["No scenario service configured; skipping scenario-driven event generation."] },
       astore)
  | some none =>
      ({ simulation := sim
         executed_phase := SimulationPhase.event_generation
         next_phase := SimulationPhase.action_collection
         generated_event_ids := []
         generated_action_ids := []
         notes := ["Scenario is not registered; skipping scenario seeding."] },
       astore)
  | some (some seed) =>
      if sim.seeded = false then
        let actionIds := seed.actions.map (fun a => a.id)
        let sim' :=
          { sim with
            seeded := true
            active_actor_ids := addUniqueList sim.active_actor_ids seed.actor_ids
            pending_event_ids := addUniqueList sim.pending_event_ids seed.event_ids
            pending_action_ids := addUniqueList sim.pending_action_ids actionIds }
        ({ simulation := sim'
           executed_phase := SimulationPhase.event_generation
           next_phase := SimulationPhase.action_collection
           generated_event_ids := seed.event_ids
           generated_action_ids := actionIds
           notes := ["Seeded scenario."] },
         seedActionsStore sim.id astore seed.actions)
      else
        let newIds : List String :=
          if env.llm_configured then
            match env.llm_events with
            | Except.ok ids => ids
            | Except.error _ => []
          else []
        ({ simulation :=
             { sim with
               pending_event_ids := addUniqueList sim.pending_event_ids newIds }
           executed_phase := SimulationPhase.event_generation
           next_phase := SimulationPhase.action_collection
           generated_event_ids := newIds
           generated_action_ids := []
           notes :=
             if newIds = [] then ["No new events generated this cycle."]
             else ["Generated new events via LLM."] },
         astore)

/-- `ActionCollectionPhaseHandler.run` (lines 316-339): drop pending action
ids whose action is missing, completed or cancelled. -/
def actionCollectionRun (sim : SimulationState) (astore : AStore) :
    PhaseResult :=
  let active := sim.pending_action_ids.filter (fun action_id =>
    match getAssoc astore action_id with
    | some a =>
        if a.status = ActionStatus.completed ∨ a.status = ActionStatus.cancelled
        then false else true
    | none => false)
  { simulation := { sim with pending_action_ids := active }
    executed_phase := SimulationPhase.action_collection
    next_phase := SimulationPhase.action_resolution
    generated_event_ids := []
    generated_action_ids := []
    notes := ["Tracked pending actions for resolution."] }

/-- `ActionResolutionPhaseHandler._resolve_actions_with_llm` (lines 400-493):
the parsed resolutions plus the ids of consequence events to persist.  With
no LLM configured, or when the call or parse fails, every still-pending
action gets a generic completion resolution. -/
def resolveActionsWithLLM (sim : SimulationState) (astore : AStore)
    (env : PhaseEnv) : List Resolution × List String :=
  if env.llm_configured = false then
    (sim.pending_action_ids.filterMap (fun action_id =>
        match getAssoc astore action_id with
        | some a =>
            if a.status = ActionStatus.pending then
              some { action_id := action_id
                     status := "completed"
                     outcome_description := "Action completed (no LLM available)" }
            else none
        | none => none),
     [])
  else
    let actions :=
      (sim.pending_action_ids.filterMap
        (fun action_id => getAssoc astore action_id)).filter
        (fun a => a.status = ActionStatus.pending)
    if actions = [] then ([], [])
    else
      match env.llm_resolutions with
      | Except.ok (data, eventIds) => (data, eventIds)
      | Except.error msg =>
          (actions.map (fun a =>
             { action_id := a.id
               status := "completed"
               outcome_description :=
                 "Action completed (LLM error: " ++ msg.take 100 ++ ")" }),
           [])

/-- Application of one parsed resolution (`ActionResolutionPhaseHandler.run`
lines 357-379): skip falsy or unknown action ids, set the action's status
from the resolution, write the action back (a full-dump update, i.e. a
replacement).  Actor-effect patches touch only the actor repository, which
no verified property observes. -/
def applyResolution (astore : AStore) (r : Resolution) : AStore :=
  if r.action_id = "" then astore
  else
    match getAssoc astore r.action_id with
    | none => astore
    | some a =>
        let a :=
          if r.status = "completed" then a.complete r.outcome_description true
          else if r.status = "failed" then a.complete r.outcome_description false
          else a
        putAssoc astore a.id a

/-- `ActionResolutionPhaseHandler.run` (lines 345-398). -/
def actionResolutionRun (sim : SimulationState) (astore : AStore)
    (env : PhaseEnv) : PhaseResult × AStore :=
  if sim.pending_action_ids = [] then
    ({ simulation := sim
       executed_phase := SimulationPhase.action_resolution
       next_phase := SimulationPhase.world_update
       generated_event_ids := []
       generated_action_ids := []
       notes := ["No actions queued for resolution."] }, astore)
  else
    let rs := resolveActionsWithLLM sim astore env
    let astore' := rs.1.foldl applyResolution astore
    let sim' :=
      { sim with pending_event_ids := addUniqueList sim.pending_event_ids rs.2 }
    ({ simulation := sim'
       executed_phase := SimulationPhase.action_resolution
       next_phase := SimulationPhase.world_update
       generated_event_ids := rs.2
       generated_action_ids := []
       notes := ["Resolved actions."] }, astore')

/-- `WorldUpdatePhaseHandler.run` (lines 533-604): actor patches and event
resolution act on the actor/event repositories (not observed by any verified
property); on the simulation itself the phase clears the pending-event list
unconditionally. -/
def worldUpdateRun (sim : SimulationState) : PhaseResult :=
  let notes :=
    if sim.pending_event_ids = [] then
      ["No pending events to apply to world state."]
    else ["Applied effects of pending events."]
  { simulation := { sim with pending_event_ids := [] }
    executed_phase := SimulationPhase.world_update
    next_phase := SimulationPhase.snapshot
    generated_event_ids := []
    generated_action_ids := []
    notes := notes }

/-- `SnapshotPhaseHandler.run` (lines 656-681): bump the snapshot counter
(the `metadata["snapshots"]` history entry is not observed by any verified
property) and propose `event_generation`. -/
def snapshotRun (sim : SimulationState) : PhaseResult :=
  { simulation := sim.record_snapshot
    executed_phase := SimulationPhase.snapshot
    next_phase := SimulationPhase.event_generation
    generated_event_ids := []
    generated_action_ids := []
    notes := ["Snapshot recorded.", "Counts recorded."] }

/-- `PhaseEngineConfig` (`engine/phase_engine.py` lines 33-39). -/
structure PhaseEngineConfig : Type where
  persist_phase_notes : Bool
  enforce_phase_sequence : Bool

/-- The default engine configuration (both flags default to `True`). -/
def defaultConfig : PhaseEngineConfig :=
  { persist_phase_notes := true, enforce_phase_sequence := true }

/-- `_DEFAULT_PHASE_ORDER` (lines 42-49). -/
def phaseOrder : List SimulationPhase :=
  [ SimulationPhase.initialize', SimulationPhase.event_generation,
    SimulationPhase.action_collection, SimulationPhase.action_resolution,
    SimulationPhase.world_update, SimulationPhase.snapshot]

/-- Errors surfaced by `step`, following the raise sites in
`engine/phase_engine.py` and the taxonomy of spec §7. -/
inductive StepError : Type
  | notFound
  | terminalState
  | unexpectedPhase
  | noHandler
  | persistenceFailed
deriving DecidableEq

/-- `PhaseEngine._verify_phase_allowed` (lines 162-179). -/
def verifyPhaseAllowed (cfg : PhaseEngineConfig) (phase : SimulationPhase)
    (sim : SimulationState) : Except StepError Unit :=
  if cfg.enforce_phase_sequence = false then Except.ok ()
  else if phase ∉ phaseOrder then Except.error StepError.unexpectedPhase
  else if phase ≠ sim.current_phase then Except.error StepError.unexpectedPhase
  else Except.ok ()

/-- `PhaseEngine._update_cycle_progress` (lines 197-213).  `next_phase` is a
local variable there: overriding it does not change `result.next_phase`. -/
def updateCycleProgress (sim : SimulationState) (res : PhaseResult) :
    SimulationState :=
  let sn : SimulationState × SimulationPhase :=
    if res.executed_phase = SimulationPhase.snapshot then
      let sim := { sim with phase_number := sim.phase_number + 1 }
      if sim.max_phases ≤ sim.phase_number then
        (sim.complete, SimulationPhase.completed)
      else (sim, res.next_phase)
    else (sim, res.next_phase)
  let sim := sn.1
  if sim.status = SimulationStatus.running then
    { sim with current_phase := sn.2 }
  else if sim.status = SimulationStatus.completed then
    { sim with current_phase := SimulationPhase.completed }
  else sim

/-- `PhaseEngine._apply_phase_result` (lines 181-195), without the final
persistence call (threaded separately by `step`). -/
def applyPhaseResult (cfg : PhaseEngineConfig) (res : PhaseResult) :
    SimulationState :=
  let sim := res.simulation
  let sim :=
    if cfg.persist_phase_notes ∧ res.notes ≠ [] then
      { sim with phase_log := sim.phase_log ++ [(res.executed_phase, res.notes)] }
    else sim
  updateCycleProgress sim res

/-- The `simulations` collection of the store, keyed by simulation id. -/
abbrev SimStore := List (String × SimulationState)

/-- Combined working set threaded through one `step`: the `simulations` and
`actions` collections of the backing store.  The engine persists a full
`to_dict` dump of the simulation, so the dict merge performed by
`MemoryRepository.update` replaces every field; the stored payload is
therefore carried as the `SimulationState` itself. -/
structure StepState : Type where
  sims : SimStore
  actions : AStore
deriving DecidableEq

/-- `PhaseEngine._persist_simulation` (lines 215-233) over
`MemoryRepository.update` (`cli/memory.py` lines 44-50) and
`LocalStateStore.put` (`cli/store.py` lines 43-45).  `put` first mutates the
in-memory collection and then flushes the whole dataset to the durable file;
`flush_ok` is the outcome of that flush, and a failed flush raises after the
mutation, which `_persist_simulation` converts into a persistence failure
(as it does an `update` that returned `False`). -/
def persistSimulation (sims : SimStore) (sim_id : String)
    (sim : SimulationState) (flush_ok : Bool) :
    Except StepError Unit × SimStore :=
  match getAssoc sims sim_id with
  | none => (Except.error StepError.persistenceFailed, sims)
  | some _ =>
      let sims := putAssoc sims sim_id sim
      if flush_ok then (Except.ok (), sims)
      else (Except.error StepError.persistenceFailed, sims)

/-- Dispatch through `PhaseHandlerRegistry.get`: the six default handlers of
`PhaseEngine._default_handlers` (lines 235-243); `paused`/`completed` have no
registered handler (a `KeyError` in the source). -/
def runHandler (phase : SimulationPhase) (sim : SimulationState)
    (astore : AStore) (env : PhaseEnv) : Option (PhaseResult × AStore) :=
  match phase with
  | SimulationPhase.initialize' => some (initializeRun sim, astore)
  | SimulationPhase.event_generation => some (eventGenerationRun sim astore env)
  | SimulationPhase.action_collection =>
      some (actionCollectionRun sim astore, astore)
  | SimulationPhase.action_resolution =>
      some (actionResolutionRun sim astore env)
  | SimulationPhase.world_update => some (worldUpdateRun sim, astore)
  | SimulationPhase.snapshot => some (snapshotRun sim, astore)
  | SimulationPhase.paused => none
  | SimulationPhase.completed => none

/-- `PhaseEngine.step` (lines 80-123): load, terminal-state check, phase
verification, handler dispatch, result application and persistence.  The
engine lock serializing concurrent calls is modelled separately below. -/
def step (cfg : PhaseEngineConfig) (env : PhaseEnv) (flush_ok : Bool)
    (st : StepState) (simulation_id : String)
    (force_phase : Option SimulationPhase) :
    Except StepError PhaseResult × StepState :=
  match getAssoc st.sims simulation_id with
  | none => (Except.error StepError.notFound, st)
  | some simulation =>
      let phase_to_run := force_phase.getD simulation.current_phase
      if simulation.status = SimulationStatus.completed ∨
          simulation.status = SimulationStatus.error then
        (Except.error StepError.terminalState, st)
      else
        match verifyPhaseAllowed cfg phase_to_run simulation with
        | Except.error e => (Except.error e, st)
        | Except.ok _ =>
            match runHandler phase_to_run simulation st.actions env with
            | none => (Except.error StepError.noHandler, st)
            | some (res, astore) =>
                let sim := applyPhaseResult cfg res
                match persistSimulation st.sims simulation_id sim flush_ok with
                | (Except.ok _, sims) =>
                    (Except.ok { res with simulation := sim },
                     { sims := sims, actions := astore })
                | (Except.error e, sims) =>
                    (Except.error e, { sims := sims, actions := astore })

/-! ## Helper lemmas about one engine step -/

theorem eventGenerationRun_fields (sim : SimulationState) (astore : AStore)
    (env : PhaseEnv) :
    (eventGenerationRun sim astore env).1.executed_phase =
        SimulationPhase.event_generation ∧
    (eventGenerationRun sim astore env).1.next_phase =
        SimulationPhase.action_collection ∧
    (eventGenerationRun sim astore env).1.simulation.status = sim.status ∧
    (eventGenerationRun sim astore env).1.simulation.current_phase =
        sim.current_phase ∧
    (eventGenerationRun sim astore env).1.simulation.phase_number =
        sim.phase_number ∧
    (eventGenerationRun sim astore env).1.simulation.max_phases =
        sim.max_phases ∧
    (eventGenerationRun sim astore env).1.notes ≠ [] := by
  rcases hsc : env.scenario with _ | sc
  · simp [eventGenerationRun, hsc]
  · rcases sc with _ | seed
    · simp [eventGenerationRun, hsc]
    · by_cases hseed : sim.seeded = false
      · simp [eventGenerationRun, hsc, hseed]
      · rw [Bool.not_eq_false] at hseed
        refine ⟨?_, ?_, ?_, ?_, ?_, ?_, ?_⟩ <;>
          · simp [eventGenerationRun, hsc, hseed]
            try split <;> simp

theorem actionCollectionRun_fields (sim : SimulationState) (astore : AStore) :
    (actionCollectionRun sim astore).executed_phase =
        SimulationPhase.action_collection ∧
    (actionCollectionRun sim astore).next_phase =
        SimulationPhase.action_resolution ∧
    (actionCollectionRun sim astore).simulation.status = sim.status ∧
    (actionCollectionRun sim astore).simulation.phase_number =
        sim.phase_number ∧
    (actionCollectionRun sim astore).simulation.max_phases = sim.max_phases ∧
    (actionCollectionRun sim astore).notes ≠ [] := by
  simp [actionCollectionRun]

theorem actionResolutionRun_fields (sim : SimulationState) (astore : AStore)
    (env : PhaseEnv) :
    (actionResolutionRun sim astore env).1.executed_phase =
        SimulationPhase.action_resolution ∧
    (actionResolutionRun sim astore env).1.next_phase =
        SimulationPhase.world_update ∧
    (actionResolutionRun sim astore env).1.simulation.status = sim.status ∧
    (actionResolutionRun sim astore env).1.simulation.phase_number =
        sim.phase_number ∧
    (actionResolutionRun sim astore env).1.simulation.max_phases =
        sim.max_phases ∧
    (actionResolutionRun sim astore env).1.notes ≠ [] := by
  by_cases hpa : sim.pending_action_ids = [] <;>
    simp [actionResolutionRun, hpa]

theorem worldUpdateRun_fields (sim : SimulationState) :
    (worldUpdateRun sim).executed_phase = SimulationPhase.world_update ∧
    (worldUpdateRun sim).next_phase = SimulationPhase.snapshot ∧
    (worldUpdateRun sim).simulation.status = sim.status ∧
    (worldUpdateRun sim).simulation.phase_number = sim.phase_number ∧
    (worldUpdateRun sim).simulation.max_phases = sim.max_phases ∧
    (worldUpdateRun sim).notes ≠ [] := by
  refine ⟨rfl, rfl, rfl, rfl, rfl, ?_⟩
  simp only [worldUpdateRun]
  split <;> simp

/-- A `step` on a terminal simulation fails before any handler runs and
leaves the working set untouched. -/
theorem step_terminal (cfg : PhaseEngineConfig) (env : PhaseEnv)
    (flush_ok : Bool) (st : StepState) (id : String) (sim : SimulationState)
    (force_phase : Option SimulationPhase)
    (h : getAssoc st.sims id = some sim)
    (hs : sim.status = SimulationStatus.completed ∨
          sim.status = SimulationStatus.error) :
    step cfg env flush_ok st id force_phase =
      (Except.error StepError.terminalState, st) := by
  rcases hs with hs | hs <;> simp [step, h, hs]

/-- Shape of a fully successful `step` (no forced phase, flush succeeds):
the handler result is applied and the applied simulation is written back. -/
theorem step_eq_of_ok (cfg : PhaseEngineConfig) (env : PhaseEnv)
    (st : StepState) (id : String) (sim : SimulationState) (res : PhaseResult)
    (astore' : AStore)
    (h : getAssoc st.sims id = some sim)
    (hterm : ¬(sim.status = SimulationStatus.completed ∨
               sim.status = SimulationStatus.error))
    (hv : verifyPhaseAllowed cfg sim.current_phase sim = Except.ok ())
    (hh : runHandler sim.current_phase sim st.actions env =
            some (res, astore')) :
    step cfg env true st id none =
      (Except.ok { res with simulation := applyPhaseResult cfg res },
       { sims := putAssoc st.sims id (applyPhaseResult cfg res),
         actions := astore' }) := by
  simp [step, h, hterm, hv, hh, persistSimulation]

/-- Effect of `_apply_phase_result` for a non-snapshot phase executed on a
running simulation: the phase pointer advances to the handler's proposal and
status/counters are untouched. -/
theorem applyPhaseResult_nonsnapshot (cfg : PhaseEngineConfig)
    (res : PhaseResult)
    (hex : res.executed_phase ≠ SimulationPhase.snapshot)
    (hst : res.simulation.status = SimulationStatus.running) :
    (applyPhaseResult cfg res).status = SimulationStatus.running ∧
    (applyPhaseResult cfg res).current_phase = res.next_phase ∧
    (applyPhaseResult cfg res).phase_number = res.simulation.phase_number ∧
    (applyPhaseResult cfg res).max_phases = res.simulation.max_phases := by
  unfold applyPhaseResult
  split <;> simp [updateCycleProgress, hex, hst]

/-- Effect of `_apply_phase_result` for the snapshot phase executed on a
running simulation: the cycle counter increments by exactly one, and the
`max_phases` threshold decides between completion and looping back. -/
theorem applyPhaseResult_snapshot (cfg : PhaseEngineConfig)
    (res : PhaseResult)
    (hex : res.executed_phase = SimulationPhase.snapshot)
    (hst : res.simulation.status = SimulationStatus.running) :
    (applyPhaseResult cfg res).phase_number =
        res.simulation.phase_number + 1 ∧
    (applyPhaseResult cfg res).max_phases = res.simulation.max_phases ∧
    (res.simulation.max_phases ≤ res.simulation.phase_number + 1 →
       (applyPhaseResult cfg res).status = SimulationStatus.completed ∧
       (applyPhaseResult cfg res).current_phase = SimulationPhase.completed) ∧
    (res.simulation.phase_number + 1 < res.simulation.max_phases →
       (applyPhaseResult cfg res).status = SimulationStatus.running ∧
       (applyPhaseResult cfg res).current_phase = res.next_phase) := by
  by_cases hle : res.simulation.max_phases ≤ res.simulation.phase_number + 1
  · unfold applyPhaseResult
    split <;>
      simp [updateCycleProgress, hex, hst, hle, SimulationState.complete,
        Nat.lt_irrefl]
  · unfold applyPhaseResult
    split <;>
      simp [updateCycleProgress, hex, hst, hle]

theorem step_created_initialize (env : PhaseEnv) (st : StepState)
    (id : String) (sim : SimulationState)
    (h : getAssoc st.sims id = some sim)
    (hs : sim.status = SimulationStatus.created)
    (hp : sim.current_phase = SimulationPhase.initialize') :
    ∃ sim', step defaultConfig env true st id none =
        (Except.ok { initializeRun sim with simulation := sim' },
         { sims := putAssoc st.sims id sim', actions := st.actions }) ∧
      sim'.status = SimulationStatus.running ∧
      sim'.current_phase = SimulationPhase.event_generation ∧
      sim'.phase_number = sim.phase_number ∧
      sim'.max_phases = sim.max_phases := by
  have hst : (initializeRun sim).simulation.status = SimulationStatus.running := by
    simp [initializeRun, hs, SimulationState.start]
  obtain ⟨f1, f2, f3, f4⟩ :=
    applyPhaseResult_nonsnapshot defaultConfig (initializeRun sim)
      (by simp [initializeRun]) hst
  refine ⟨applyPhaseResult defaultConfig (initializeRun sim), ?_, f1, ?_, ?_, ?_⟩
  · exact step_eq_of_ok defaultConfig env st id sim (initializeRun sim)
      st.actions h (by simp [hs])
      (by simp [verifyPhaseAllowed, hp, defaultConfig, phaseOrder])
      (by rw [hp]; rfl)
  · rw [f2]; rfl
  · rw [f3]; simp [initializeRun, hs, SimulationState.start]
  · rw [f4]; simp [initializeRun, hs, SimulationState.start]

theorem step_running_event_generation (env : PhaseEnv) (st : StepState)
    (id : String) (sim : SimulationState)
    (h : getAssoc st.sims id = some sim)
    (hs : sim.status = SimulationStatus.running)
    (hp : sim.current_phase = SimulationPhase.event_generation) :
    ∃ sim', step defaultConfig env true st id none =
        (Except.ok
           { (eventGenerationRun sim st.actions env).1 with simulation := sim' },
         { sims := putAssoc st.sims id sim',
           actions := (eventGenerationRun sim st.actions env).2 }) ∧
      sim'.status = SimulationStatus.running ∧
      sim'.current_phase = SimulationPhase.action_collection ∧
      sim'.phase_number = sim.phase_number ∧
      sim'.max_phases = sim.max_phases := by
  obtain ⟨g1, g2, g3, g4, g5, g6, g7⟩ :=
    eventGenerationRun_fields sim st.actions env
  obtain ⟨f1, f2, f3, f4⟩ :=
    applyPhaseResult_nonsnapshot defaultConfig
      (eventGenerationRun sim st.actions env).1
      (by rw [g1]; simp) (by rw [g3, hs])
  refine ⟨applyPhaseResult defaultConfig (eventGenerationRun sim st.actions env).1,
    ?_, f1, ?_, ?_, ?_⟩
  · exact step_eq_of_ok defaultConfig env st id sim
      (eventGenerationRun sim st.actions env).1
      (eventGenerationRun sim st.actions env).2 h (by simp [hs])
      (by simp [verifyPhaseAllowed, hp, defaultConfig, phaseOrder])
      (by rw [hp]; rfl)
  · rw [f2, g2]
  · rw [f3, g5]
  · rw [f4, g6]

theorem step_running_action_collection (env : PhaseEnv) (st : StepState)
    (id : String) (sim : SimulationState)
    (h : getAssoc st.sims id = some sim)
    (hs : sim.status = SimulationStatus.running)
    (hp : sim.current_phase = SimulationPhase.action_collection) :
    ∃ sim', step defaultConfig env true st id none =
        (Except.ok
           { actionCollectionRun sim st.actions with simulation := sim' },
         { sims := putAssoc st.sims id sim', actions := st.actions }) ∧
      sim'.status = SimulationStatus.running ∧
      sim'.current_phase = SimulationPhase.action_resolution ∧
      sim'.phase_number = sim.phase_number ∧
      sim'.max_phases = sim.max_phases := by
  obtain ⟨g1, g2, g3, g4, g5, g6⟩ := actionCollectionRun_fields sim st.actions
  obtain ⟨f1, f2, f3, f4⟩ :=
    applyPhaseResult_nonsnapshot defaultConfig (actionCollectionRun sim st.actions)
      (by rw [g1]; simp) (by rw [g3, hs])
  refine ⟨applyPhaseResult defaultConfig (actionCollectionRun sim st.actions),
    ?_, f1, ?_, ?_, ?_⟩
  · exact step_eq_of_ok defaultConfig env st id sim
      (actionCollectionRun sim st.actions) st.actions h (by simp [hs])
      (by simp [verifyPhaseAllowed, hp, defaultConfig, phaseOrder])
      (by rw [hp]; rfl)
  · rw [f2, g2]
  · rw [f3, g4]
  · rw [f4, g5]

theorem step_running_action_resolution (env : PhaseEnv) (st : StepState)
    (id : String) (sim : SimulationState)
    (h : getAssoc st.sims id = some sim)
    (hs : sim.status = SimulationStatus.running)
    (hp : sim.current_phase = SimulationPhase.action_resolution) :
    ∃ sim', step defaultConfig env true st id none =
        (Except.ok
           { (actionResolutionRun sim st.actions env).1 with simulation := sim' },
         { sims := putAssoc st.sims id sim',
           actions := (actionResolutionRun sim st.actions env).2 }) ∧
      sim'.status = SimulationStatus.running ∧
      sim'.current_phase = SimulationPhase.world_update ∧
      sim'.phase_number = sim.phase_number ∧
      sim'.max_phases = sim.max_phases := by
  obtain ⟨g1, g2, g3, g4, g5, g6⟩ :=
    actionResolutionRun_fields sim st.actions env
  obtain ⟨f1, f2, f3, f4⟩ :=
    applyPhaseResult_nonsnapshot defaultConfig
      (actionResolutionRun sim st.actions env).1
      (by rw [g1]; simp) (by rw [g3, hs])
  refine ⟨applyPhaseResult defaultConfig (actionResolutionRun sim st.actions env).1,
    ?_, f1, ?_, ?_, ?_⟩
  · exact step_eq_of_ok defaultConfig env st id sim
      (actionResolutionRun sim st.actions env).1
      (actionResolutionRun sim st.actions env).2 h (by simp [hs])
      (by simp [verifyPhaseAllowed, hp, defaultConfig, phaseOrder])
      (by rw [hp]; rfl)
  · rw [f2, g2]
  · rw [f3, g4]
  · rw [f4, g5]

theorem step_running_world_update (env : PhaseEnv) (st : StepState)
    (id : String) (sim : SimulationState)
    (h : getAssoc st.sims id = some sim)
    (hs : sim.status = SimulationStatus.running)
    (hp : sim.current_phase = SimulationPhase.world_update) :
    ∃ sim', step defaultConfig env true st id none =
        (Except.ok { worldUpdateRun sim with simulation := sim' },
         { sims := putAssoc st.sims id sim', actions := st.actions }) ∧
      sim'.status = SimulationStatus.running ∧
      sim'.current_phase = SimulationPhase.snapshot ∧
      sim'.phase_number = sim.phase_number ∧
      sim'.max_phases = sim.max_phases := by
  obtain ⟨g1, g2, g3, g4, g5, g6⟩ := worldUpdateRun_fields sim
  obtain ⟨f1, f2, f3, f4⟩ :=
    applyPhaseResult_nonsnapshot defaultConfig (worldUpdateRun sim)
      (by rw [g1]; simp) (by rw [g3, hs])
  refine ⟨applyPhaseResult defaultConfig (worldUpdateRun sim), ?_, f1, ?_, ?_, ?_⟩
  · exact step_eq_of_ok defaultConfig env st id sim (worldUpdateRun sim)
      st.actions h (by simp [hs])
      (by simp [verifyPhaseAllowed, hp, defaultConfig, phaseOrder])
      (by rw [hp]; rfl)
  · rw [f2, g2]
  · rw [f3, g4]
  · rw [f4, g5]

theorem step_running_snapshot (env : PhaseEnv) (st : StepState)
    (id : String) (sim : SimulationState)
    (h : getAssoc st.sims id = some sim)
    (hs : sim.status = SimulationStatus.running)
    (hp : sim.current_phase = SimulationPhase.snapshot) :
    ∃ sim', step defaultConfig env true st id none =
        (Except.ok { snapshotRun sim with simulation := sim' },
         { sims := putAssoc st.sims id sim', actions := st.actions }) ∧
      sim'.phase_number = sim.phase_number + 1 ∧
      sim'.max_phases = sim.max_phases ∧
      (sim.max_phases ≤ sim.phase_number + 1 →
         sim'.status = SimulationStatus.completed ∧
         sim'.current_phase = SimulationPhase.completed) ∧
      (sim.phase_number + 1 < sim.max_phases →
         sim'.status = SimulationStatus.running ∧
         sim'.current_phase = SimulationPhase.event_generation) := by
  have hsim : (snapshotRun sim).simulation.phase_number = sim.phase_number ∧
      (snapshotRun sim).simulation.max_phases = sim.max_phases ∧
      (snapshotRun sim).simulation.status = sim.status := by
    simp [snapshotRun, SimulationState.record_snapshot]
  obtain ⟨e1, e2, e3⟩ := hsim
  obtain ⟨f1, f2, f3, f4⟩ :=
    applyPhaseResult_snapshot defaultConfig (snapshotRun sim) rfl
      (by rw [e3, hs])
  refine ⟨applyPhaseResult defaultConfig (snapshotRun sim), ?_, ?_, ?_, ?_, ?_⟩
  · exact step_eq_of_ok defaultConfig env st id sim (snapshotRun sim)
      st.actions h (by simp [hs])
      (by simp [verifyPhaseAllowed, hp, defaultConfig, phaseOrder])
      (by rw [hp]; rfl)
  · rw [f1, e1]
  · rw [f2, e2]
  · intro hle
    exact f3 (by rw [e2, e1]; exact hle)
  · intro hlt
    obtain ⟨c1, c2⟩ := f4 (by rw [e2, e1]; exact hlt)
    exact ⟨c1, by rw [c2]; rfl⟩

/-! ## Claim C1 -/

/-- C1: for every simulation created in the initial state (status `created`,
phase `initialize`, cycle counter 0), six consecutive unforced `step` calls
execute the phases `initialize, event_generation, action_collection,
action_resolution, world_update, snapshot` in order; the cycle counter stays
0 through the first five steps, and after the sixth (snapshot) step it
equals 1 and the phase is `event_generation` — for `max_cycles > 1` and with
every persistence call succeeding. -/
theorem c1_six_step_cycle (e1 e2 e3 e4 e5 e6 : PhaseEnv) (st0 : StepState)
    (id : String) (sim0 : SimulationState)
    (h0 : getAssoc st0.sims id = some sim0)
    (hstat : sim0.status = SimulationStatus.created)
    (hph : sim0.current_phase = SimulationPhase.initialize')
    (hn : sim0.phase_number = 0)
    (hmax : 1 < sim0.max_phases) :
    ∃ r1 r2 r3 r4 r5 r6 st1 st2 st3 st4 st5 st6,
      step defaultConfig e1 true st0 id none = (Except.ok r1, st1) ∧
      step defaultConfig e2 true st1 id none = (Except.ok r2, st2) ∧
      step defaultConfig e3 true st2 id none = (Except.ok r3, st3) ∧
      step defaultConfig e4 true st3 id none = (Except.ok r4, st4) ∧
      step defaultConfig e5 true st4 id none = (Except.ok r5, st5) ∧
      step defaultConfig e6 true st5 id none = (Except.ok r6, st6) ∧
      r1.executed_phase = SimulationPhase.initialize' ∧
      r2.executed_phase = SimulationPhase.event_generation ∧
      r3.executed_phase = SimulationPhase.action_collection ∧
      r4.executed_phase = SimulationPhase.action_resolution ∧
      r5.executed_phase = SimulationPhase.world_update ∧
      r6.executed_phase = SimulationPhase.snapshot ∧
      r1.simulation.phase_number = 0 ∧
      r2.simulation.phase_number = 0 ∧
      r3.simulation.phase_number = 0 ∧
      r4.simulation.phase_number = 0 ∧
      r5.simulation.phase_number = 0 ∧
      r6.simulation.phase_number = 1 ∧
      r6.simulation.current_phase = SimulationPhase.event_generation ∧
      getAssoc st6.sims id = some r6.simulation := by
  obtain ⟨s1, heq1, a1, b1, c1, d1⟩ :=
    step_created_initialize e1 st0 id sim0 h0 hstat hph
  obtain ⟨s2, heq2, a2, b2, c2, d2⟩ :=
    step_running_event_generation e2
      { sims := putAssoc st0.sims id s1, actions := st0.actions } id s1
      (getAssoc_putAssoc_self _ _ _) a1 b1
  obtain ⟨s3, heq3, a3, b3, c3, d3⟩ :=
    step_running_action_collection e3
      { sims := putAssoc (putAssoc st0.sims id s1) id s2,
        actions := (eventGenerationRun s1 st0.actions e2).2 } id s2
      (getAssoc_putAssoc_self _ _ _) a2 b2
  obtain ⟨s4, heq4, a4, b4, c4, d4⟩ :=
    step_running_action_resolution e4
      { sims := putAssoc (putAssoc (putAssoc st0.sims id s1) id s2) id s3,
        actions := (eventGenerationRun s1 st0.actions e2).2 } id s3
      (getAssoc_putAssoc_self _ _ _) a3 b3
  obtain ⟨s5, heq5, a5, b5, c5, d5⟩ :=
    step_running_world_update e5
      { sims := putAssoc (putAssoc (putAssoc (putAssoc st0.sims id s1) id s2)
                  id s3) id s4,
        actions := (actionResolutionRun s3
            (eventGenerationRun s1 st0.actions e2).2 e4).2 } id s4
      (getAssoc_putAssoc_self _ _ _) a4 b4
  obtain ⟨s6, heq6, n6, m6, hcompl6, hrun6⟩ :=
    step_running_snapshot e6
      { sims := putAssoc (putAssoc (putAssoc (putAssoc (putAssoc st0.sims id
                  s1) id s2) id s3) id s4) id s5,
        actions := (actionResolutionRun s3
            (eventGenerationRun s1 st0.actions e2).2 e4).2 } id s5
      (getAssoc_putAssoc_self _ _ _) a5 b5
  have pn1 : s1.phase_number = 0 := c1.trans hn
  have pn2 : s2.phase_number = 0 := c2.trans pn1
  have pn3 : s3.phase_number = 0 := c3.trans pn2
  have pn4 : s4.phase_number = 0 := c4.trans pn3
  have pn5 : s5.phase_number = 0 := c5.trans pn4
  have pm5 : s5.max_phases = sim0.max_phases :=
    d5.trans (d4.trans (d3.trans (d2.trans d1)))
  have pn6 : s6.phase_number = 1 := by rw [n6, pn5]
  have hlt : s5.phase_number + 1 < s5.max_phases := by
    rw [pn5, pm5]; exact hmax
  obtain ⟨-, cp6⟩ := hrun6 hlt
  exact ⟨_, _, _, _, _, _, _, _, _, _, _, _,
    heq1, heq2, heq3, heq4, heq5, heq6,
    rfl, (eventGenerationRun_fields s1 st0.actions e2).1,
    (actionCollectionRun_fields s2 (eventGenerationRun s1 st0.actions e2).2).1,
    (actionResolutionRun_fields s3 (eventGenerationRun s1 st0.actions e2).2 e4).1,
    (worldUpdateRun_fields s4).1, rfl,
    pn1, pn2, pn3, pn4, pn5, pn6, cp6,
    getAssoc_putAssoc_self _ _ _⟩

/-! ## Claim C2 -/

/-- C2: a step that executes the snapshot phase increments the cycle counter
by exactly 1; if the incremented counter reaches `max_cycles` the
coordinator forces status and phase to `completed`, overriding the handler's
proposed next phase (`event_generation`), and afterwards every subsequent
`step` call fails with the terminal-state error and leaves the stored state
(in particular `current_phase`) unchanged.  With `max_cycles = 1` this
happens at the very first snapshot step. -/
theorem c2_snapshot_completion (env : PhaseEnv) (st : StepState) (id : String)
    (sim : SimulationState)
    (h : getAssoc st.sims id = some sim)
    (hs : sim.status = SimulationStatus.running)
    (hp : sim.current_phase = SimulationPhase.snapshot) :
    ∃ r st', step defaultConfig env true st id none = (Except.ok r, st') ∧
      r.executed_phase = SimulationPhase.snapshot ∧
      r.simulation.phase_number = sim.phase_number + 1 ∧
      getAssoc st'.sims id = some r.simulation ∧
      (sim.max_phases ≤ sim.phase_number + 1 →
        r.simulation.status = SimulationStatus.completed ∧
        r.simulation.current_phase = SimulationPhase.completed ∧
        r.next_phase = SimulationPhase.event_generation ∧
        ∀ (env' : PhaseEnv) (flush_ok : Bool)
          (force : Option SimulationPhase),
          step defaultConfig env' flush_ok st' id force =
            (Except.error StepError.terminalState, st')) := by
  obtain ⟨s', heq, n, m, hcompl, hrun⟩ :=
    step_running_snapshot env st id sim h hs hp
  refine ⟨_, _, heq, rfl, n, getAssoc_putAssoc_self _ _ _, ?_⟩
  intro hle
  obtain ⟨cs, cp⟩ := hcompl hle
  refine ⟨cs, cp, rfl, ?_⟩
  intro env' flush_ok force
  exact step_terminal defaultConfig env' flush_ok
    { sims := putAssoc st.sims id s', actions := st.actions } id s' force
    (getAssoc_putAssoc_self _ _ _) (Or.inl cs)

/-! ## Claim C5 -/

theorem runHandler_isSome_of_mem (phase : SimulationPhase)
    (sim : SimulationState) (astore : AStore) (env : PhaseEnv)
    (hmem : phase ∈ phaseOrder) :
    (runHandler phase sim astore env).isSome = true := by
  cases phase <;> simp [phaseOrder] at hmem <;> simp [runHandler]

/-- C5: with sequence enforcement enabled, a `step` on a non-terminal stored
simulation fails with the unexpected-phase error exactly when the phase to
run (the forced phase if given, else the recorded `current_phase`) is not in
the canonical six-phase sequence or differs from the recorded
`current_phase`; with enforcement disabled no such check is made and the
unexpected-phase error can never arise. -/
theorem c5_unexpected_phase (env : PhaseEnv) (st : StepState) (id : String)
    (sim : SimulationState) (force_phase : Option SimulationPhase)
    (h : getAssoc st.sims id = some sim)
    (hterm : ¬(sim.status = SimulationStatus.completed ∨
               sim.status = SimulationStatus.error)) :
    (∀ cfg : PhaseEngineConfig, cfg.enforce_phase_sequence = true →
      ((step cfg env true st id force_phase).1 =
          Except.error StepError.unexpectedPhase ↔
        (force_phase.getD sim.current_phase ∉ phaseOrder ∨
         force_phase.getD sim.current_phase ≠ sim.current_phase))) ∧
    (∀ cfg : PhaseEngineConfig, cfg.enforce_phase_sequence = false →
      (step cfg env true st id force_phase).1 ≠
        Except.error StepError.unexpectedPhase) := by
  constructor
  · intro cfg hcfg
    constructor
    · intro hstep
      by_contra hno
      push_neg at hno
      obtain ⟨hmem, heq⟩ := hno
      have hmem2 : sim.current_phase ∈ phaseOrder := by
        rw [← heq]; exact hmem
      have hv : verifyPhaseAllowed cfg (force_phase.getD sim.current_phase)
          sim = Except.ok () := by
        simp [verifyPhaseAllowed, hcfg, hmem, heq, hmem2]
      obtain ⟨pr, hpr⟩ := Option.isSome_iff_exists.mp
        (runHandler_isSome_of_mem (force_phase.getD sim.current_phase) sim
          st.actions env hmem)
      obtain ⟨res, astore'⟩ := pr
      simp [step, h, hterm, hv, hpr, persistSimulation] at hstep
    · intro hmm
      have hv : verifyPhaseAllowed cfg (force_phase.getD sim.current_phase)
          sim = Except.error StepError.unexpectedPhase := by
        rcases hmm with hmm | hmm
        · simp [verifyPhaseAllowed, hcfg, hmm]
        · by_cases hmem : force_phase.getD sim.current_phase ∈ phaseOrder
          · simp [verifyPhaseAllowed, hcfg, hmem, hmm]
          · simp [verifyPhaseAllowed, hcfg, hmem]
      simp [step, h, hterm, hv]
  · intro cfg hcfg
    have hv : verifyPhaseAllowed cfg (force_phase.getD sim.current_phase)
        sim = Except.ok () := by
      simp [verifyPhaseAllowed, hcfg]
    rcases hr : runHandler (force_phase.getD sim.current_phase) sim
        st.actions env with _ | pr
    · simp [step, h, hterm, hv, hr]
    · obtain ⟨res, astore'⟩ := pr
      simp [step, h, hterm, hv, hr, persistSimulation]

/-! ## Claim C4 -/

/-- Shape of a step whose handler runs but whose durable-file flush fails:
the error is reported, yet the in-memory collection already holds the
post-step record (`LocalStateStore.put` mutates before it flushes). -/
theorem step_eq_of_flush_fail (cfg : PhaseEngineConfig) (env : PhaseEnv)
    (st : StepState) (id : String) (sim : SimulationState)
    (res : PhaseResult) (astore' : AStore)
    (h : getAssoc st.sims id = some sim)
    (hterm : ¬(sim.status = SimulationStatus.completed ∨
               sim.status = SimulationStatus.error))
    (hv : verifyPhaseAllowed cfg sim.current_phase sim = Except.ok ())
    (hh : runHandler sim.current_phase sim st.actions env =
            some (res, astore')) :
    step cfg env false st id none =
      (Except.error StepError.persistenceFailed,
       { sims := putAssoc st.sims id (applyPhaseResult cfg res),
         actions := astore' }) := by
  simp [step, h, hterm, hv, hh, persistSimulation]

/-- C4 (amended): when the write-back's durable-file flush fails, the step
surfaces `PersistenceFailed`, but the in-memory store already holds exactly
the record a successful step would have written — so a subsequent reader of
the store observes the post-step phase pointer, not the pre-step one. -/
theorem c4_flush_failure_visible (env : PhaseEnv) (st : StepState)
    (id : String) (sim : SimulationState)
    (h : getAssoc st.sims id = some sim)
    (hterm : ¬(sim.status = SimulationStatus.completed ∨
               sim.status = SimulationStatus.error))
    (hmem : sim.current_phase ∈ phaseOrder) :
    (step defaultConfig env false st id none).1 =
        Except.error StepError.persistenceFailed ∧
    (step defaultConfig env false st id none).2 =
        (step defaultConfig env true st id none).2 ∧
    ∃ r, (step defaultConfig env true st id none).1 = Except.ok r ∧
      getAssoc (step defaultConfig env false st id none).2.sims id =
        some r.simulation := by
  have hv : verifyPhaseAllowed defaultConfig sim.current_phase sim =
      Except.ok () := by
    simp [verifyPhaseAllowed, defaultConfig, hmem]
  obtain ⟨pr, hpr⟩ := Option.isSome_iff_exists.mp
    (runHandler_isSome_of_mem sim.current_phase sim st.actions env hmem)
  obtain ⟨res, astore'⟩ := pr
  have hfail := step_eq_of_flush_fail defaultConfig env st id sim res astore'
    h hterm hv hpr
  have hok := step_eq_of_ok defaultConfig env st id sim res astore'
    h hterm hv hpr
  rw [hfail, hok]
  exact ⟨rfl, rfl, _, rfl, getAssoc_putAssoc_self _ _ _⟩

/-- A representative environment: no scenario service, no LLM service. -/
def envNoServices : PhaseEnv :=
  { scenario := none
    llm_configured := false
    llm_events := Except.error "unavailable"
    llm_resolutions := Except.error "unavailable" }

/-- A freshly created simulation record. -/
def simFresh : SimulationState :=
  { id := "sim-1"
    name := "demo"
    status := SimulationStatus.created
    current_phase := SimulationPhase.initialize'
    phase_number := 0
    max_phases := 3
    scenario_module := "basic"
    active_actor_ids := []
    pending_event_ids := []
    pending_action_ids := []
    snapshot_count := 0
    seeded := false
    phase_log := [] }

/-- A store holding only the freshly created simulation. -/
def stFresh : StepState := { sims := [("sim-1", simFresh)], actions := [] }

/-- C4 counterexample: at a concrete freshly created simulation, a step
whose durable-file flush fails raises `PersistenceFailed`, yet a subsequent
reader observes the post-step record (`current_phase = event_generation`)
instead of the pre-step record (`initialize`) — the claimed
"no phase-pointer mutation is observable" property fails on the code. -/
theorem c4_counterexample :
    (step defaultConfig envNoServices false stFresh "sim-1" none).1 =
        Except.error StepError.persistenceFailed ∧
    (getAssoc (step defaultConfig envNoServices false stFresh "sim-1"
        none).2.sims "sim-1").map SimulationState.current_phase =
      some SimulationPhase.event_generation ∧
    simFresh.current_phase = SimulationPhase.initialize' ∧
    SimulationPhase.event_generation ≠ SimulationPhase.initialize' := by
  refine ⟨?_, ?_, rfl, by decide⟩ <;> rfl

/-! ## Claim C3 — concurrency of `step`

`PhaseEngine.__init__` creates a single `asyncio.Lock` for the whole engine
(`phase_engine.py` line 78: `self._lock = asyncio.Lock()`), and `step` runs
its entire body — including the handler — inside `async with self._lock`
(line 88).  The lock never consults the simulation id.  The API layer
additionally wraps engine calls in per-simulation locks
(`RuntimeManager.get_simulation_lock`, `api/dependencies.py` lines 115-119),
but the handler execution itself always happens under the one engine lock.
Two concurrent `step` calls are modelled as two tasks that must hold that
engine lock while in their handler. -/

/-- Program counter of one in-flight `step` call. -/
inductive StepPC : Type
  | ready
  | inHandler
  | finished
deriving DecidableEq

/-- Joint state of two concurrent `step` calls against one `PhaseEngine`:
the single engine lock plus each task's program counter and target
simulation id (the ids never influence the transitions, exactly as in the
source). -/
structure EngineLockState : Type where
  engine_lock_held : Bool
  pc1 : StepPC
  pc2 : StepPC
  sim1 : String
  sim2 : String
deriving DecidableEq

/-- Interleaving semantics of the two `step` calls: a task acquires the
engine lock only when it is free, runs its handler while holding it, and
releases it when done. -/
inductive LockStep : EngineLockState → EngineLockState → Prop
  | acquire1 (s : EngineLockState) (h1 : s.pc1 = StepPC.ready)
      (hfree : s.engine_lock_held = false) :
      LockStep s { s with pc1 := StepPC.inHandler, engine_lock_held := true }
  | release1 (s : EngineLockState) (h1 : s.pc1 = StepPC.inHandler) :
      LockStep s { s with pc1 := StepPC.finished, engine_lock_held := false }
  | acquire2 (s : EngineLockState) (h2 : s.pc2 = StepPC.ready)
      (hfree : s.engine_lock_held = false) :
      LockStep s { s with pc2 := StepPC.inHandler, engine_lock_held := true }
  | release2 (s : EngineLockState) (h2 : s.pc2 = StepPC.inHandler) :
      LockStep s { s with pc2 := StepPC.finished, engine_lock_held := false }

/-- Initial state: lock free, both calls pending. -/
def initLockState (id1 id2 : String) : EngineLockState :=
  { engine_lock_held := false
    pc1 := StepPC.ready
    pc2 := StepPC.ready
    sim1 := id1
    sim2 := id2 }

/-- Final state: both calls completed, lock free. -/
def doneLockState (id1 id2 : String) : EngineLockState :=
  { engine_lock_held := false
    pc1 := StepPC.finished
    pc2 := StepPC.finished
    sim1 := id1
    sim2 := id2 }

/-- States reachable by interleaving the two `step` calls. -/
inductive ReachableLock (id1 id2 : String) : EngineLockState → Prop
  | init : ReachableLock id1 id2 (initLockState id1 id2)
  | next (s s' : EngineLockState) (hs : ReachableLock id1 id2 s)
      (hstep : LockStep s s') : ReachableLock id1 id2 s'

/-- Inductive lock invariant: a task inside its handler implies the lock is
held, and the two tasks are never inside their handlers simultaneously. -/
def lockInv (s : EngineLockState) : Prop :=
  ((s.pc1 = StepPC.inHandler ∨ s.pc2 = StepPC.inHandler) →
     s.engine_lock_held = true) ∧
  ¬(s.pc1 = StepPC.inHandler ∧ s.pc2 = StepPC.inHandler)

theorem lockInv_of_reachable (id1 id2 : String) (s : EngineLockState)
    (hr : ReachableLock id1 id2 s) : lockInv s := by
  induction hr with
  | init => exact ⟨by simp [initLockState], by simp [initLockState]⟩
  | next s s' hs hstep ih =>
      obtain ⟨held, mutex⟩ := ih
      cases hstep with
      | acquire1 h1 hfree =>
          refine ⟨fun _ => rfl, ?_⟩
          intro ⟨p1, p2⟩
          exact absurd (held (Or.inr p2)) (by rw [hfree]; simp)
      | release1 h1 =>
          refine ⟨?_, by simp⟩
          intro hcase
          rcases hcase with hc | hc
          · simp at hc
          · exact absurd ⟨h1, hc⟩ mutex
      | acquire2 h2 hfree =>
          refine ⟨fun _ => rfl, ?_⟩
          intro ⟨p1, p2⟩
          exact absurd (held (Or.inl p1)) (by rw [hfree]; simp)
      | release2 h2 =>
          refine ⟨?_, by simp⟩
          intro hcase
          rcases hcase with hc | hc
          · exact absurd ⟨hc, h2⟩ mutex
          · simp at hc

/-- C3 (amended): two concurrent `step` calls never execute their handlers
concurrently — for the same simulation id and for different simulation ids
alike, because the engine serializes every step through its one engine-wide
lock — and every interleaving lets both calls run to completion. -/
theorem c3_step_serialization :
    (∀ (id1 id2 : String) (s : EngineLockState),
       ReachableLock id1 id2 s →
       ¬(s.pc1 = StepPC.inHandler ∧ s.pc2 = StepPC.inHandler)) ∧
    (∀ id1 id2 : String,
       ReachableLock id1 id2 (doneLockState id1 id2)) := by
  constructor
  · intro id1 id2 s hr
    exact (lockInv_of_reachable id1 id2 s hr).2
  · intro id1 id2
    have h0 : ReachableLock id1 id2 (initLockState id1 id2) :=
      ReachableLock.init
    have h1 := ReachableLock.next _ _ h0
      (LockStep.acquire1 (initLockState id1 id2) rfl rfl)
    have h2 := ReachableLock.next _ _ h1
      (LockStep.release1 _ rfl)
    have h3 := ReachableLock.next _ _ h2
      (LockStep.acquire2 _ rfl rfl)
    have h4 := ReachableLock.next _ _ h3
      (LockStep.release2 _ rfl)
    exact h4

/-- C3 counterexample: even for two concrete, distinct simulation ids, no
interleaving of two concurrent `step` calls reaches a state where both
handlers execute at once — refuting the claim that steps for different
simulation ids may run concurrently, each under its own per-simulation
lock: the engine-wide lock of `PhaseEngine.step` serializes them too. -/
theorem c3_counterexample :
    ¬∃ s : EngineLockState, ReachableLock "sim-a" "sim-b" s ∧
      s.pc1 = StepPC.inHandler ∧ s.pc2 = StepPC.inHandler := by
  intro ⟨s, hr, hboth⟩
  exact (lockInv_of_reachable "sim-a" "sim-b" s hr).2 hboth

/-! ## Claim C6 — notification fan-out (`api/dependencies.py`) -/

/-- An `asyncio.Queue` as used for SSE subscribers: FIFO buffer (head =
oldest) plus its `maxsize`.  A queue with `maxsize ≤ 0` is unbounded in
`asyncio` and never full. -/
structure BoundedQueue (α : Type) : Type where
  items : List α
  maxsize : Nat
deriving DecidableEq

/-- `asyncio.Queue.full()`: only a positive `maxsize` can make a queue
full. -/
def queueFull {α : Type} (q : BoundedQueue α) : Bool :=
  decide (0 < q.maxsize ∧ q.maxsize ≤ q.items.length)

/-- `subscribe_to_stream` (`api/dependencies.py` lines 121-128) creates
each subscriber queue with `maxsize=32`. -/
def streamQueueCapacity : Nat := 32

/-- A fresh subscriber queue as created by `subscribe_to_stream`. -/
def newSubscriberQueue (α : Type) : BoundedQueue α :=
  { items := [], maxsize := streamQueueCapacity }

/-- One queue's part of `publish_stream_event` (lines 154-168):
`put_nowait`; on `QueueFull`, `get_nowait` the oldest pending item
(`QueueEmpty` is passed over) and retry `put_nowait` once, dropping the
event if the queue is somehow still full. -/
def publishToQueue {α : Type} (q : BoundedQueue α) (e : α) : BoundedQueue α :=
  if queueFull q then
    match q.items with
    | [] => q
    | _ :: rest =>
        if queueFull { q with items := rest } then { q with items := rest }
        else { q with items := rest ++ [e] }
  else { q with items := q.items ++ [e] }

/-- The SSE subscriber map of `RuntimeManager` (`_stream_subscribers`),
simulation id → subscriber queues; a Python `set` of queues is carried as a
list, each queue updated independently. -/
structure StreamState (α : Type) : Type where
  subscribers : List (String × List (BoundedQueue α))
deriving DecidableEq

/-- `RuntimeManager.publish_stream_event` (lines 145-168): look up the
subscribers under the stream lock; with none registered the publish is a
no-op; otherwise every subscriber queue receives the event. -/
def publishStreamEvent {α : Type} (st : StreamState α) (simulation_id : String)
    (event : α) : StreamState α :=
  match getAssoc st.subscribers simulation_id with
  | none => st
  | some [] => st
  | some qs =>
      { subscribers := putAssoc st.subscribers simulation_id
          (qs.map (fun q => publishToQueue q event)) }

theorem publishToQueue_foldl {α : Type} (N : Nat) (hN : 0 < N) (es q : List α)
    (hq : q.length ≤ N) :
    (es.foldl publishToQueue { items := q, maxsize := N }).items =
      (q ++ es).drop ((q ++ es).length - N) ∧
    (es.foldl publishToQueue { items := q, maxsize := N }).maxsize = N := by
  induction es generalizing q with
  | nil =>
      refine ⟨?_, rfl⟩
      simp [Nat.sub_eq_zero_of_le hq]
  | cons e rest ih =>
      by_cases hlt : q.length < N
      · have hstep : publishToQueue { items := q, maxsize := N } e =
            { items := q ++ [e], maxsize := N } := by
          simp [publishToQueue, queueFull, Nat.not_le_of_lt hlt]
        rw [List.foldl_cons, hstep]
        obtain ⟨h1, h2⟩ := ih (q ++ [e]) (by simp; omega)
        refine ⟨?_, h2⟩
        rw [h1]
        simp
      · have hfull : q.length = N := Nat.le_antisymm hq (Nat.le_of_not_lt hlt)
        obtain ⟨hd, tl, rfl⟩ : ∃ hd tl, q = hd :: tl := by
          cases q with
          | nil => simp at hfull; omega
          | cons a b => exact ⟨a, b, rfl⟩
        have htl : tl.length + 1 = N := by simpa using hfull
        have hstep : publishToQueue { items := hd :: tl, maxsize := N } e =
            { items := tl ++ [e], maxsize := N } := by
          have hf1 : queueFull { items := hd :: tl, maxsize := N } = true := by
            simp [queueFull]; omega
          have hf2 : queueFull { items := tl, maxsize := N } = false := by
            simp [queueFull]; omega
          simp [publishToQueue, hf1, hf2]
        rw [List.foldl_cons, hstep]
        obtain ⟨h1, h2⟩ := ih (tl ++ [e]) (by simp; omega)
        refine ⟨?_, h2⟩
        rw [h1]
        have harith : (hd :: (tl ++ e :: rest)).length - N =
            ((tl ++ e :: rest).length - N) + 1 := by
          simp; omega
        rw [List.append_assoc, List.singleton_append, List.cons_append,
          harith, List.drop_succ_cons]

/-- C6: a fresh subscriber queue (fixed capacity N = 32) with no consumer
draining it retains, after N+1 publishes, exactly the N most recent items in
publish order; a publish on a full queue evicts the oldest pending item to
make room; publishing to a simulation with zero subscribers is a no-op. -/
theorem c6_backpressure (α : Type) (es : List α)
    (hlen : es.length = streamQueueCapacity + 1) :
    ((es.foldl publishToQueue (newSubscriberQueue α)).items = es.drop 1 ∧
     (es.foldl publishToQueue (newSubscriberQueue α)).items.length =
       streamQueueCapacity) ∧
    (∀ (q : BoundedQueue α) (e : α), 0 < q.maxsize →
       q.items.length = q.maxsize →
       (publishToQueue q e).items = q.items.tail ++ [e]) ∧
    (∀ (st : StreamState α) (simulation_id : String) (e : α),
       getAssoc st.subscribers simulation_id = none →
       publishStreamEvent st simulation_id e = st) := by
  refine ⟨?_, ?_, ?_⟩
  · obtain ⟨h1, h2⟩ := publishToQueue_foldl streamQueueCapacity
      (by simp [streamQueueCapacity]) es ([] : List α) (by simp)
    have hitems : (es.foldl publishToQueue (newSubscriberQueue α)).items =
        es.drop 1 := by
      rw [newSubscriberQueue, h1]
      simp [hlen, streamQueueCapacity]
    refine ⟨hitems, ?_⟩
    rw [hitems]
    simp [hlen, streamQueueCapacity]
  · intro q e hpos hfull
    obtain ⟨hd, tl, hq⟩ : ∃ hd tl, q.items = hd :: tl := by
      cases hi : q.items with
      | nil => rw [hi] at hfull; simp at hfull; omega
      | cons a b => exact ⟨a, b, rfl⟩
    have hf1 : queueFull q = true := by
      simp [queueFull]; omega
    have hf2 : queueFull { q with items := tl } = false := by
      have : tl.length + 1 = q.maxsize := by
        rw [← hfull, hq]; simp
      simp [queueFull]; omega
    simp [publishToQueue, hf1, hq, hf2]
  · intro st simulation_id e hnone
    simp [publishStreamEvent, hnone]

/-! ## Claim C7 — gateway failures recovered inside the handlers -/

/-- Keys of the actions collection name their stored action (`create`
stores each payload under `payload["id"]`). -/
def storeWF (astore : AStore) : Prop :=
  ∀ k a, getAssoc astore k = some a → a.id = k

theorem getAssoc_putAssoc_cases {α : Type} (l : List (String × α))
    (k k' : String) (v w : α)
    (h : getAssoc (putAssoc l k v) k' = some w) :
    (k' = k ∧ w = v) ∨ getAssoc l k' = some w := by
  by_cases hk : k' = k
  · subst hk
    rw [getAssoc_putAssoc_self] at h
    exact Or.inl ⟨rfl, (Option.some.inj h).symm⟩
  · rw [getAssoc_putAssoc_ne _ _ _ _ hk] at h
    exact Or.inr h

theorem storeWF_putAssoc (astore : AStore) (v : Action)
    (hwf : storeWF astore) : storeWF (putAssoc astore v.id v) := by
  intro k' a h
  rcases getAssoc_putAssoc_cases astore v.id k' v a h with ⟨hk, hv⟩ | hrest
  · rw [hv, hk]
  · exact hwf _ _ hrest

theorem applyResolution_storeWF (astore : AStore) (r : Resolution)
    (hwf : storeWF astore) : storeWF (applyResolution astore r) := by
  unfold applyResolution
  by_cases he : r.action_id = ""
  · simpa [he] using hwf
  · cases hg : getAssoc astore r.action_id with
    | none => simpa [he, hg] using hwf
    | some a =>
        simp only [he, hg, if_false]
        split
        · exact storeWF_putAssoc _ _ hwf
        · split
          · exact storeWF_putAssoc _ _ hwf
          · exact storeWF_putAssoc _ _ hwf

theorem applyResolution_getAssoc_ne (astore : AStore) (r : Resolution)
    (k : String) (hwf : storeWF astore) (hne : r.action_id ≠ k) :
    getAssoc (applyResolution astore r) k = getAssoc astore k := by
  unfold applyResolution
  by_cases he : r.action_id = ""
  · simp [he]
  · cases hg : getAssoc astore r.action_id with
    | none => simp [he, hg]
    | some a =>
        have hid : a.id = r.action_id := hwf _ _ hg
        have key : ∀ x : Action, x.id = r.action_id →
            getAssoc (putAssoc astore x.id x) k = getAssoc astore k := by
          intro x hx
          refine getAssoc_putAssoc_ne _ _ _ _ ?_
          rw [hx]
          exact fun hh => hne hh.symm
        simp only [he, hg, if_false]
        split
        · exact key _ hid
        · split
          · exact key _ hid
          · exact key _ hid

theorem applyResolution_complete (astore : AStore) (r : Resolution)
    (a : Action) (hwf : storeWF astore)
    (hg : getAssoc astore r.action_id = some a)
    (hne : r.action_id ≠ "") (hstat : r.status = "completed") :
    getAssoc (applyResolution astore r) r.action_id =
      some (a.complete r.outcome_description true) := by
  have hid : a.id = r.action_id := hwf _ _ hg
  unfold applyResolution
  simp only [hne, hg, hstat, if_false, if_true, reduceIte]
  rw [show (a.complete r.outcome_description true).id = r.action_id from hid]
  exact getAssoc_putAssoc_self _ _ _

theorem foldl_applyResolution_untouched (outcome : String) (l : List Action)
    (astore : AStore) (hwf : storeWF astore) (k : String)
    (hk : ∀ y ∈ l, y.id ≠ k) :
    getAssoc (l.foldl (fun st x => applyResolution st
        { action_id := x.id, status := "completed",
          outcome_description := outcome }) astore) k = getAssoc astore k := by
  induction l generalizing astore with
  | nil => rfl
  | cons y tl ih =>
      rw [List.foldl_cons]
      rw [ih _ (applyResolution_storeWF _ _ hwf)
        (fun z hz => hk z (List.mem_cons_of_mem _ hz))]
      exact applyResolution_getAssoc_ne _ _ _ hwf
        (hk y (List.mem_cons_self _ _))

theorem foldl_applyResolution_generic (outcome : String) (acts : List Action)
    (astore : AStore) (hwf : storeWF astore)
    (hnodup : (acts.map (fun a => a.id)).Nodup) :
    ∀ a ∈ acts, getAssoc astore a.id = some a → a.id ≠ "" →
      getAssoc (acts.foldl (fun st x => applyResolution st
          { action_id := x.id, status := "completed",
            outcome_description := outcome }) astore) a.id =
        some (a.complete outcome true) := by
  induction acts generalizing astore with
  | nil => intro a ha; simp at ha
  | cons x tl ih =>
      intro a ha hget hne
      rw [List.foldl_cons]
      have hwf1 : storeWF (applyResolution astore
          { action_id := x.id, status := "completed",
            outcome_description := outcome }) :=
        applyResolution_storeWF _ _ hwf
      rcases List.mem_cons.mp ha with rfl | hatl
      · have hdone : getAssoc (applyResolution astore
            { action_id := a.id, status := "completed",
              outcome_description := outcome }) a.id =
            some (a.complete outcome true) :=
          applyResolution_complete astore _ a hwf hget hne rfl
        rw [foldl_applyResolution_untouched outcome tl _ hwf1 a.id ?hk]
        · exact hdone
        case hk =>
          intro y hy
          have hxid : a.id ∉ tl.map (fun z => z.id) :=
            (List.nodup_cons.mp hnodup).1
          intro hcon
          exact hxid (hcon ▸ List.mem_map_of_mem _ hy)
      · have haid : a.id ≠ x.id := by
          have hxid : x.id ∉ tl.map (fun z => z.id) :=
            (List.nodup_cons.mp hnodup).1
          intro hcon
          exact hxid (hcon ▸ List.mem_map_of_mem _ hatl)
        have hget1 : getAssoc (applyResolution astore
            { action_id := x.id, status := "completed",
              outcome_description := outcome }) a.id = some a := by
          rw [applyResolution_getAssoc_ne _ _ _ hwf
            (fun hh => haid hh.symm)]
          exact hget
        exact ih _ hwf1 (List.nodup_cons.mp hnodup).2 a hatl hget1 hne

theorem gathered_ids_sublist (astore : AStore) (hwf : storeWF astore)
    (l : List String) :
    (((l.filterMap (fun aid => getAssoc astore aid)).filter
        (fun a => a.status = ActionStatus.pending)).map
      (fun a => a.id)).Sublist l := by
  induction l with
  | nil => simp
  | cons aid tl ih =>
      cases hg : getAssoc astore aid with
      | none =>
          rw [List.filterMap_cons_none hg]
          exact ih.cons _
      | some a =>
          have hid : a.id = aid := hwf _ _ hg
          rw [List.filterMap_cons_some hg]
          by_cases hp : a.status = ActionStatus.pending
          · rw [List.filter_cons_of_pos (by simp [hp])]
            rw [List.map_cons, hid]
            exact ih.cons₂ _
          · rw [List.filter_cons_of_neg (by simp [hp])]
            exact ih.cons _

/-- C7: a generative-gateway failure never escapes a phase handler.  In
`event_generation` (already-seeded simulation, LLM configured, call or parse
failed) the handler degrades to zero new events, leaves the simulation and
action store untouched, and still proposes `action_collection`.  In
`action_resolution` (LLM configured, call or parse failed) the handler
proposes `world_update`, generates no consequence events, and every
remaining pending action (a pending-status action reachable from the
simulation's pending list under a well-formed store) is marked completed
with the generic LLM-error outcome. -/
theorem c7_gateway_failure_recovery (sim : SimulationState) (astore : AStore)
    (env : PhaseEnv) (seed : ScenarioSeed) (msg msg2 : String)
    (hsc : env.scenario = some (some seed))
    (hseed : sim.seeded = true)
    (hllm : env.llm_configured = true)
    (hev : env.llm_events = Except.error msg)
    (hres : env.llm_resolutions = Except.error msg2)
    (hwf : storeWF astore)
    (hnodup : sim.pending_action_ids.Nodup) :
    ((eventGenerationRun sim astore env).1.generated_event_ids = [] ∧
     (eventGenerationRun sim astore env).1.next_phase =
        SimulationPhase.action_collection ∧
     (eventGenerationRun sim astore env).1.simulation = sim ∧
     (eventGenerationRun sim astore env).2 = astore) ∧
    ((actionResolutionRun sim astore env).1.next_phase =
        SimulationPhase.world_update ∧
     (actionResolutionRun sim astore env).1.generated_event_ids = [] ∧
     ∀ (aid : String) (a : Action), aid ∈ sim.pending_action_ids →
       getAssoc astore aid = some a → a.status = ActionStatus.pending →
       aid ≠ "" →
       getAssoc (actionResolutionRun sim astore env).2 aid =
         some (a.complete
           ("Action completed (LLM error: " ++ msg2.take 100 ++ ")") true)) := by
  constructor
  · refine ⟨?_, ?_, ?_, ?_⟩
    · simp [eventGenerationRun, hsc, hseed, hllm, hev]
    · simp [eventGenerationRun, hsc, hseed, hllm, hev]
    · cases sim with
      | mk id name status cph n mx sm aa pe pa sc sd pl =>
          simp only at hseed
          subst hseed
          simp [eventGenerationRun, hsc, hllm, hev, addUniqueList]
    · simp [eventGenerationRun, hsc, hseed, hllm, hev]
  · by_cases hpempty : sim.pending_action_ids = []
    · refine ⟨?_, ?_, ?_⟩
      · simp [actionResolutionRun, hpempty]
      · simp [actionResolutionRun, hpempty]
      · intro aid a hmem
        rw [hpempty] at hmem
        simp at hmem
    · have hacts :
          resolveActionsWithLLM sim astore env =
            (if ((sim.pending_action_ids.filterMap
                  (fun action_id => getAssoc astore action_id)).filter
                  (fun a => a.status = ActionStatus.pending)) = [] then
               (([] : List Resolution), ([] : List String))
             else
               (((sim.pending_action_ids.filterMap
                   (fun action_id => getAssoc astore action_id)).filter
                   (fun a => a.status = ActionStatus.pending)).map (fun a =>
                  { action_id := a.id
                    status := "completed"
                    outcome_description :=
                      "Action completed (LLM error: " ++ msg2.take 100 ++ ")" }),
                ([] : List String))) := by
        simp [resolveActionsWithLLM, hllm, hres]

      by_cases hempty2 :
          ((sim.pending_action_ids.filterMap
            (fun action_id => getAssoc astore action_id)).filter
            (fun a => a.status = ActionStatus.pending)) = []
      · refine ⟨?_, ?_, ?_⟩
        · simp [actionResolutionRun, hpempty, hacts, hempty2]
        · simp [actionResolutionRun, hpempty, hacts, hempty2]
        · intro aid a hmem hget hstat hne
          exfalso
          have hamem : a ∈ ((sim.pending_action_ids.filterMap
              (fun action_id => getAssoc astore action_id)).filter
              (fun a => a.status = ActionStatus.pending)) := by
            refine List.mem_filter.mpr ⟨?_, by simp [hstat]⟩
            exact List.mem_filterMap.mpr ⟨aid, hmem, hget⟩
          rw [hempty2] at hamem
          simp at hamem
      · refine ⟨?_, ?_, ?_⟩
        · simp [actionResolutionRun, hpempty]
        · simp [actionResolutionRun, hpempty, hacts, hempty2]
        · intro aid a hmem hget hstat hne
          have hamem : a ∈ ((sim.pending_action_ids.filterMap
              (fun action_id => getAssoc astore action_id)).filter
              (fun a => a.status = ActionStatus.pending)) := by
            refine List.mem_filter.mpr ⟨?_, by simp [hstat]⟩
            exact List.mem_filterMap.mpr ⟨aid, hmem, hget⟩
          have hid : a.id = aid := hwf _ _ hget
          have hids : ((((sim.pending_action_ids.filterMap
              (fun action_id => getAssoc astore action_id)).filter
              (fun a => a.status = ActionStatus.pending)).map
              (fun a => a.id))).Nodup :=
            (gathered_ids_sublist astore hwf sim.pending_action_ids).nodup
              hnodup
          have hget' : getAssoc astore a.id = some a := by rw [hid]; exact hget
          have hkey := foldl_applyResolution_generic
            ("Action completed (LLM error: " ++ msg2.take 100 ++ ")")
            ((sim.pending_action_ids.filterMap
              (fun action_id => getAssoc astore action_id)).filter
              (fun a => a.status = ActionStatus.pending))
            astore hwf hids a hamem hget' (by rw [hid]; exact hne)
          have hstore : (actionResolutionRun sim astore env).2 =
              (((sim.pending_action_ids.filterMap
                 (fun action_id => getAssoc astore action_id)).filter
                 (fun a => a.status = ActionStatus.pending)).map (fun a =>
                   ({ action_id := a.id
                      status := "completed"
                      outcome_description :=
                        "Action completed (LLM error: " ++ msg2.take 100 ++
                          ")" } : Resolution))).foldl applyResolution astore := by
            simp [actionResolutionRun, hpempty, hacts, hempty2]
          rw [hstore, List.foldl_map, ← hid]
          exact hkey

/-! ## Entity store (`cli/memory.py`, `cli/store.py`) — claims C8, C9

`MemoryRepository` is generic over an entity type with injected
`to_dict`/`from_dict` serializers; payloads are JSON dicts.  The value
universe below covers the field types of the four entity kinds that the
store laws observe. -/

/-- JSON-ish values appearing in the entity payloads. -/
inductive JsonVal : Type
  | null
  | bool (b : Bool)
  | num (n : Int)
  | str (s : String)
  | strList (xs : List String)
  | log (entries : List (String × List String))
deriving DecidableEq

/-- A Python dict payload: association list preserving insertion order. -/
abbrev JsonDict := List (String × JsonVal)

/-- One store collection: entity id → payload (a partition of
`LocalStateStore._data`). -/
abbrev Collection := List (String × JsonDict)

def JsonDict.getStr (d : JsonDict) (k : String) : Option String :=
  match getAssoc d k with
  | some (JsonVal.str s) => some s
  | _ => none

def JsonDict.getBool (d : JsonDict) (k : String) : Option Bool :=
  match getAssoc d k with
  | some (JsonVal.bool b) => some b
  | _ => none

def JsonDict.getNat (d : JsonDict) (k : String) : Option Nat :=
  match getAssoc d k with
  | some (JsonVal.num n) => if 0 ≤ n then some n.toNat else none
  | _ => none

def JsonDict.getStrList (d : JsonDict) (k : String) : Option (List String) :=
  match getAssoc d k with
  | some (JsonVal.strList xs) => some xs
  | _ => none

def JsonDict.getLog (d : JsonDict) (k : String) :
    Option (List (String × List String)) :=
  match getAssoc d k with
  | some (JsonVal.log entries) => some entries
  | _ => none

def JsonDict.getOptStr (d : JsonDict) (k : String) : Option (Option String) :=
  match getAssoc d k with
  | some JsonVal.null => some none
  | some (JsonVal.str s) => some (some s)
  | _ => none

def JsonDict.getOptBool (d : JsonDict) (k : String) : Option (Option Bool) :=
  match getAssoc d k with
  | some JsonVal.null => some none
  | some (JsonVal.bool b) => some (some b)
  | _ => none

/-! ### Enum codecs (pydantic `str` enums serialize to their values) -/

def ActorType.toStr : ActorType → String
  | ActorType.player => "player"
  | ActorType.npc => "npc"
  | ActorType.organization => "organization"
  | ActorType.entity => "entity"

def ActorType.ofStr : String → Option ActorType
  | "player" => some ActorType.player
  | "npc" => some ActorType.npc
  | "organization" => some ActorType.organization
  | "entity" => some ActorType.entity
  | _ => none

theorem actorType_ofStr_toStr (x : ActorType) :
    ActorType.ofStr x.toStr = some x := by cases x <;> rfl

def EventType.toStr : EventType → String
  | EventType.environmental => "environmental"
  | EventType.social => "social"
  | EventType.economic => "economic"
  | EventType.political => "political"
  | EventType.system => "system"
  | EventType.player_action => "player_action"
  | EventType.npc_action => "npc_action"

def EventType.ofStr : String → Option EventType
  | "environmental" => some EventType.environmental
  | "social" => some EventType.social
  | "economic" => some EventType.economic
  | "political" => some EventType.political
  | "system" => some EventType.system
  | "player_action" => some EventType.player_action
  | "npc_action" => some EventType.npc_action
  | _ => none

theorem eventType_ofStr_toStr (x : EventType) :
    EventType.ofStr x.toStr = some x := by cases x <;> rfl

def EventStatus.toStr : EventStatus → String
  | EventStatus.pending => "pending"
  | EventStatus.confirmed => "confirmed"
  | EventStatus.resolved => "resolved"
  | EventStatus.cancelled => "cancelled"

def EventStatus.ofStr : String → Option EventStatus
  | "pending" => some EventStatus.pending
  | "confirmed" => some EventStatus.confirmed
  | "resolved" => some EventStatus.resolved
  | "cancelled" => some EventStatus.cancelled
  | _ => none

theorem eventStatus_ofStr_toStr (x : EventStatus) :
    EventStatus.ofStr x.toStr = some x := by cases x <;> rfl

def ActionStatus.toStr : ActionStatus → String
  | ActionStatus.pending => "pending"
  | ActionStatus.approved => "approved"
  | ActionStatus.executing => "executing"
  | ActionStatus.completed => "completed"
  | ActionStatus.cancelled => "cancelled"

def ActionStatus.ofStr : String → Option ActionStatus
  | "pending" => some ActionStatus.pending
  | "approved" => some ActionStatus.approved
  | "executing" => some ActionStatus.executing
  | "completed" => some ActionStatus.completed
  | "cancelled" => some ActionStatus.cancelled
  | _ => none

theorem actionStatus_ofStr_toStr (x : ActionStatus) :
    ActionStatus.ofStr x.toStr = some x := by cases x <;> rfl

def SimulationStatus.toStr : SimulationStatus → String
  | SimulationStatus.created => "created"
  | SimulationStatus.running => "running"
  | SimulationStatus.paused => "paused"
  | SimulationStatus.completed => "completed"
  | SimulationStatus.error => "error"

def SimulationStatus.ofStr : String → Option SimulationStatus
  | "created" => some SimulationStatus.created
  | "running" => some SimulationStatus.running
  | "paused" => some SimulationStatus.paused
  | "completed" => some SimulationStatus.completed
  | "error" => some SimulationStatus.error
  | _ => none

theorem simulationStatus_ofStr_toStr (x : SimulationStatus) :
    SimulationStatus.ofStr x.toStr = some x := by cases x <;> rfl

def SimulationPhase.toStr : SimulationPhase → String
  | SimulationPhase.initialize' => "initialize"
  | SimulationPhase.event_generation => "event_generation"
  | SimulationPhase.action_collection => "action_collection"
  | SimulationPhase.action_resolution => "action_resolution"
  | SimulationPhase.world_update => "world_update"
  | SimulationPhase.snapshot => "snapshot"
  | SimulationPhase.paused => "paused"
  | SimulationPhase.completed => "completed"

def SimulationPhase.ofStr : String → Option SimulationPhase
  | "initialize" => some SimulationPhase.initialize'
  | "event_generation" => some SimulationPhase.event_generation
  | "action_collection" => some SimulationPhase.action_collection
  | "action_resolution" => some SimulationPhase.action_resolution
  | "world_update" => some SimulationPhase.world_update
  | "snapshot" => some SimulationPhase.snapshot
  | "paused" => some SimulationPhase.paused
  | "completed" => some SimulationPhase.completed
  | _ => none

theorem simulationPhase_ofStr_toStr (x : SimulationPhase) :
    SimulationPhase.ofStr x.toStr = some x := by cases x <;> rfl

/-- Serialization of the phase log: each entry's phase by its enum value. -/
def encodeLog (l : List (SimulationPhase × List String)) :
    List (String × List String) :=
  l.map (fun e => (e.1.toStr, e.2))

def decodeLog : List (String × List String) →
    Option (List (SimulationPhase × List String))
  | [] => some []
  | e :: rest =>
      match SimulationPhase.ofStr e.1, decodeLog rest with
      | some p, some tail => some ((p, e.2) :: tail)
      | _, _ => none

theorem decodeLog_encodeLog (l : List (SimulationPhase × List String)) :
    decodeLog (encodeLog l) = some l := by
  induction l with
  | nil => rfl
  | cons e rest ih =>
      simp [encodeLog, decodeLog, simulationPhase_ofStr_toStr] at *
      rw [ih]

/-! ### Entity serializers (`to_dict` = pydantic `model_dump(mode="json")`,
`from_dict` = validated reconstruction) -/

def Actor.to_dict (a : Actor) : JsonDict :=
  [("id", JsonVal.str a.id), ("name", JsonVal.str a.name),
   ("type", JsonVal.str a.type.toStr), ("active", JsonVal.bool a.active)]

def Actor.from_dict (d : JsonDict) : Option Actor := do
  let id ← d.getStr "id"
  let name ← d.getStr "name"
  let ty ← ActorType.ofStr (← d.getStr "type")
  let active ← d.getBool "active"
  pure { id := id, name := name, type := ty, active := active }

theorem actor_from_dict_to_dict (a : Actor) :
    Actor.from_dict a.to_dict = some a := by
  simp [Actor.to_dict, Actor.from_dict, JsonDict.getStr, JsonDict.getBool,
    getAssoc, actorType_ofStr_toStr]

def Event.to_dict (e : Event) : JsonDict :=
  [("id", JsonVal.str e.id), ("title", JsonVal.str e.title),
   ("description", JsonVal.str e.description),
   ("type", JsonVal.str e.type.toStr),
   ("status", JsonVal.str e.status.toStr),
   ("affected_actors", JsonVal.strList e.affected_actors)]

def Event.from_dict (d : JsonDict) : Option Event := do
  let id ← d.getStr "id"
  let title ← d.getStr "title"
  let description ← d.getStr "description"
  let ty ← EventType.ofStr (← d.getStr "type")
  let status ← EventStatus.ofStr (← d.getStr "status")
  let affected ← d.getStrList "affected_actors"
  pure { id := id, title := title, description := description, type := ty,
         status := status, affected_actors := affected }

theorem event_from_dict_to_dict (e : Event) :
    Event.from_dict e.to_dict = some e := by
  simp [Event.to_dict, Event.from_dict, JsonDict.getStr,
    JsonDict.getStrList, getAssoc, eventType_ofStr_toStr,
    eventStatus_ofStr_toStr]

def Action.to_dict (a : Action) : JsonDict :=
  [("id", JsonVal.str a.id), ("actor_id", JsonVal.str a.actor_id),
   ("simulation_id", JsonVal.str a.simulation_id),
   ("intent", JsonVal.str a.intent),
   ("status", JsonVal.str a.status.toStr),
   ("outcome", match a.outcome with
               | none => JsonVal.null
               | some s => JsonVal.str s),
   ("success", match a.success with
               | none => JsonVal.null
               | some b => JsonVal.bool b)]

def Action.from_dict (d : JsonDict) : Option Action := do
  let id ← d.getStr "id"
  let actor_id ← d.getStr "actor_id"
  let simulation_id ← d.getStr "simulation_id"
  let intent ← d.getStr "intent"
  let status ← ActionStatus.ofStr (← d.getStr "status")
  let outcome ← d.getOptStr "outcome"
  let success ← d.getOptBool "success"
  pure { id := id, actor_id := actor_id, simulation_id := simulation_id,
         intent := intent, status := status, outcome := outcome,
         success := success }

theorem action_from_dict_to_dict (a : Action) :
    Action.from_dict a.to_dict = some a := by
  cases a with
  | mk id actor_id simulation_id intent status outcome success =>
      cases outcome <;> cases success <;>
        simp [Action.to_dict, Action.from_dict, JsonDict.getStr,
          JsonDict.getOptStr, JsonDict.getOptBool, getAssoc,
          actionStatus_ofStr_toStr]

def SimulationState.to_dict (s : SimulationState) : JsonDict :=
  [("id", JsonVal.str s.id), ("name", JsonVal.str s.name),
   ("status", JsonVal.str s.status.toStr),
   ("current_phase", JsonVal.str s.current_phase.toStr),
   ("phase_number", JsonVal.num (Int.ofNat s.phase_number)),
   ("max_phases", JsonVal.num (Int.ofNat s.max_phases)),
   ("scenario_module", JsonVal.str s.scenario_module),
   ("active_actor_ids", JsonVal.strList s.active_actor_ids),
   ("pending_event_ids", JsonVal.strList s.pending_event_ids),
   ("pending_action_ids", JsonVal.strList s.pending_action_ids),
   ("snapshot_count", JsonVal.num (Int.ofNat s.snapshot_count)),
   ("seeded", JsonVal.bool s.seeded),
   ("phase_log", JsonVal.log (encodeLog s.phase_log))]

def SimulationState.from_dict (d : JsonDict) : Option SimulationState := do
  let id ← d.getStr "id"
  let name ← d.getStr "name"
  let status ← SimulationStatus.ofStr (← d.getStr "status")
  let current_phase ← SimulationPhase.ofStr (← d.getStr "current_phase")
  let phase_number ← d.getNat "phase_number"
  let max_phases ← d.getNat "max_phases"
  let scenario_module ← d.getStr "scenario_module"
  let active_actor_ids ← d.getStrList "active_actor_ids"
  let pending_event_ids ← d.getStrList "pending_event_ids"
  let pending_action_ids ← d.getStrList "pending_action_ids"
  let snapshot_count ← d.getNat "snapshot_count"
  let seeded ← d.getBool "seeded"
  let phase_log ← decodeLog (← d.getLog "phase_log")
  pure { id := id, name := name, status := status,
         current_phase := current_phase, phase_number := phase_number,
         max_phases := max_phases, scenario_module := scenario_module,
         active_actor_ids := active_actor_ids,
         pending_event_ids := pending_event_ids,
         pending_action_ids := pending_action_ids,
         snapshot_count := snapshot_count, seeded := seeded,
         phase_log := phase_log }

theorem simulationState_from_dict_to_dict (s : SimulationState) :
    SimulationState.from_dict s.to_dict = some s := by
  simp [SimulationState.to_dict, SimulationState.from_dict,
    JsonDict.getStr, JsonDict.getBool, JsonDict.getNat, JsonDict.getStrList,
    JsonDict.getLog, getAssoc, simulationStatus_ofStr_toStr,
    simulationPhase_ofStr_toStr, decodeLog_encodeLog]

/-! ### Generic repository operations -/

/-- `{**payload, **updates}` of `MemoryRepository.update`: keys of
`updates` override those of `payload`; new keys append in order. -/
def mergeDict (payload updates : JsonDict) : JsonDict :=
  updates.foldl (fun acc kv => putAssoc acc kv.1 kv.2) payload

/-- `MemoryRepository.create` (`cli/memory.py` lines 34-38): serialize,
read `payload["id"]`, store via `LocalStateStore.put`, return the id.
(`to_dict` always writes a string `"id"`; anything else would be a
`KeyError` in the source and is mapped to the empty id here.) -/
def repoCreate (col : Collection) (payload : JsonDict) :
    String × Collection :=
  let entity_id :=
    match getAssoc payload "id" with
    | some (JsonVal.str s) => s
    | _ => ""
  (entity_id, putAssoc col entity_id payload)

/-- `MemoryRepository.get` (lines 40-42): absent id gives `None`, never an
error. -/
def repoGet {T : Type} (from_dict : JsonDict → Option T) (col : Collection)
    (entity_id : String) : Option T :=
  (getAssoc col entity_id).bind from_dict

/-- `MemoryRepository.update` (lines 44-50): `False` when the id is absent,
otherwise merge and store. -/
def repoUpdate (col : Collection) (entity_id : String) (updates : JsonDict) :
    Bool × Collection :=
  match getAssoc col entity_id with
  | none => (false, col)
  | some payload =>
      (true, putAssoc col entity_id (mergeDict payload updates))

/-- `MemoryRepository.delete` (lines 52-53) over `LocalStateStore.delete`
(`cli/store.py` lines 57-63). -/
def repoDelete (col : Collection) (entity_id : String) : Bool × Collection :=
  if (getAssoc col entity_id).isSome then (true, delAssoc col entity_id)
  else (false, col)

/-- `MemorySimulationRepository.update` (`cli/memory.py` lines 133-137):
inject a fresh `updated_at` when the caller did not provide one, then
delegate to the generic update. -/
def simRepoUpdate (col : Collection) (entity_id : String)
    (updates : JsonDict) (now : String) : Bool × Collection :=
  let updates :=
    if (getAssoc updates "updated_at").isSome then updates
    else putAssoc updates "updated_at" (JsonVal.str now)
  repoUpdate col entity_id updates

theorem getAssoc_eq_none_of_not_mem_keys {α : Type} (l : List (String × α))
    (k : String) (h : k ∉ l.map Prod.fst) : getAssoc l k = none := by
  induction l with
  | nil => rfl
  | cons hd tl ih =>
      rw [List.map_cons, List.mem_cons] at h
      push_neg at h
      obtain ⟨h1, h2⟩ := h
      simp only [getAssoc]
      rw [if_neg (Ne.symm h1)]
      exact ih h2

theorem mergeDict_getAssoc_of_none (payload updates : JsonDict) (k : String)
    (h : getAssoc updates k = none) :
    getAssoc (mergeDict payload updates) k = getAssoc payload k := by
  induction updates generalizing payload with
  | nil => rfl
  | cons kv rest ih =>
      have hne : kv.1 ≠ k := by
        intro hk
        simp [getAssoc, hk] at h
      have h' : getAssoc rest k = none := by
        simpa [getAssoc, hne] using h
      rw [show mergeDict payload (kv :: rest) =
            mergeDict (putAssoc payload kv.1 kv.2) rest from rfl]
      rw [ih _ h']
      exact getAssoc_putAssoc_ne _ _ _ _ (fun hh => hne hh.symm)

theorem mergeDict_getAssoc_of_some (payload updates : JsonDict) (k : String)
    (v : JsonVal) (hnd : (updates.map Prod.fst).Nodup)
    (h : getAssoc updates k = some v) :
    getAssoc (mergeDict payload updates) k = some v := by
  induction updates generalizing payload with
  | nil => simp [getAssoc] at h
  | cons kv rest ih =>
      rw [List.map_cons] at hnd
      obtain ⟨hnotin, hndrest⟩ := List.nodup_cons.mp hnd
      rw [show mergeDict payload (kv :: rest) =
            mergeDict (putAssoc payload kv.1 kv.2) rest from rfl]
      by_cases hk : kv.1 = k
      · have hv : v = kv.2 := by
          simp [getAssoc, hk] at h
          exact h.symm
        have hrest : getAssoc rest k = none := by
          apply getAssoc_eq_none_of_not_mem_keys
          rw [← hk]
          exact hnotin
        rw [mergeDict_getAssoc_of_none _ _ _ hrest, hv, ← hk]
        exact getAssoc_putAssoc_self _ _ _
      · have h' : getAssoc rest k = some v := by
          simpa [getAssoc, hk] using h
        exact ih _ hndrest h'

/-! ## Claim C8 -/

/-- C8: for each of the four entity kinds, `create(E)` followed by
`get(E.id)` returns a value equal to E (round-trip law), and `delete(E.id)`
followed by `get(E.id)` returns the absent value. -/
theorem c8_create_get_delete_roundtrip (col1 col2 col3 col4 : Collection)
    (a : Actor) (e : Event) (act : Action) (s : SimulationState) :
    (repoGet Actor.from_dict (repoCreate col1 a.to_dict).2 a.id = some a ∧
     repoGet Actor.from_dict
       (repoDelete (repoCreate col1 a.to_dict).2 a.id).2 a.id = none) ∧
    (repoGet Event.from_dict (repoCreate col2 e.to_dict).2 e.id = some e ∧
     repoGet Event.from_dict
       (repoDelete (repoCreate col2 e.to_dict).2 e.id).2 e.id = none) ∧
    (repoGet Action.from_dict (repoCreate col3 act.to_dict).2 act.id =
        some act ∧
     repoGet Action.from_dict
       (repoDelete (repoCreate col3 act.to_dict).2 act.id).2 act.id = none) ∧
    (repoGet SimulationState.from_dict
        (repoCreate col4 s.to_dict).2 s.id = some s ∧
     repoGet SimulationState.from_dict
       (repoDelete (repoCreate col4 s.to_dict).2 s.id).2 s.id = none) := by
  have hk1 : (repoCreate col1 a.to_dict).2 = putAssoc col1 a.id a.to_dict := by
    simp [repoCreate, Actor.to_dict, getAssoc]
  have hk2 : (repoCreate col2 e.to_dict).2 = putAssoc col2 e.id e.to_dict := by
    simp [repoCreate, Event.to_dict, getAssoc]
  have hk3 : (repoCreate col3 act.to_dict).2 =
      putAssoc col3 act.id act.to_dict := by
    simp [repoCreate, Action.to_dict, getAssoc]
  have hk4 : (repoCreate col4 s.to_dict).2 = putAssoc col4 s.id s.to_dict := by
    simp [repoCreate, SimulationState.to_dict, getAssoc]
  refine ⟨⟨?_, ?_⟩, ⟨?_, ?_⟩, ⟨?_, ?_⟩, ⟨?_, ?_⟩⟩
  · rw [hk1]
    show (getAssoc (putAssoc col1 a.id a.to_dict) a.id).bind Actor.from_dict =
      some a
    rw [getAssoc_putAssoc_self]
    exact actor_from_dict_to_dict a
  · rw [hk1]
    simp [repoGet, repoDelete, getAssoc_putAssoc_self, getAssoc_delAssoc_self]
  · rw [hk2]
    show (getAssoc (putAssoc col2 e.id e.to_dict) e.id).bind Event.from_dict =
      some e
    rw [getAssoc_putAssoc_self]
    exact event_from_dict_to_dict e
  · rw [hk2]
    simp [repoGet, repoDelete, getAssoc_putAssoc_self, getAssoc_delAssoc_self]
  · rw [hk3]
    show (getAssoc (putAssoc col3 act.id act.to_dict) act.id).bind
      Action.from_dict = some act
    rw [getAssoc_putAssoc_self]
    exact action_from_dict_to_dict act
  · rw [hk3]
    simp [repoGet, repoDelete, getAssoc_putAssoc_self, getAssoc_delAssoc_self]
  · rw [hk4]
    show (getAssoc (putAssoc col4 s.id s.to_dict) s.id).bind
      SimulationState.from_dict = some s
    rw [getAssoc_putAssoc_self]
    exact simulationState_from_dict_to_dict s
  · rw [hk4]
    simp [repoGet, repoDelete, getAssoc_putAssoc_self, getAssoc_delAssoc_self]

/-! ## Claim C9 -/

/-- C9: `update(id, partial-field map)` on a missing id returns false (not
an error) and leaves the entire stored dataset unchanged — including
through the simulation repository's `updated_at` injection; on a present id
it merges the given fields into the existing record and returns true: the
stored record becomes the merge, other ids are untouched, every updated key
reads back its new value and every other key its old one. -/
theorem c9_update_missing_and_merge (col : Collection) (entity_id : String)
    (updates payload : JsonDict) (now : String) :
    (getAssoc col entity_id = none →
       repoUpdate col entity_id updates = (false, col) ∧
       simRepoUpdate col entity_id updates now = (false, col)) ∧
    (getAssoc col entity_id = some payload →
       repoUpdate col entity_id updates =
         (true, putAssoc col entity_id (mergeDict payload updates)) ∧
       getAssoc (repoUpdate col entity_id updates).2 entity_id =
         some (mergeDict payload updates) ∧
       (∀ k, k ≠ entity_id →
          getAssoc (repoUpdate col entity_id updates).2 k =
            getAssoc col k) ∧
       ((updates.map Prod.fst).Nodup →
          ∀ k v, getAssoc updates k = some v →
            getAssoc (mergeDict payload updates) k = some v) ∧
       (∀ k, getAssoc updates k = none →
          getAssoc (mergeDict payload updates) k = getAssoc payload k)) := by
  constructor
  · intro hnone
    constructor
    · simp [repoUpdate, hnone]
    · simp [simRepoUpdate, repoUpdate, hnone]
  · intro hsome
    refine ⟨by simp [repoUpdate, hsome], ?_, ?_, ?_, ?_⟩
    · simp [repoUpdate, hsome, getAssoc_putAssoc_self]
    · intro k hk
      simp only [repoUpdate, hsome]
      exact getAssoc_putAssoc_ne _ _ _ _ hk
    · intro hnd k v hv
      exact mergeDict_getAssoc_of_some payload updates k v hnd hv
    · intro k hk
      exact mergeDict_getAssoc_of_none payload updates k hk

/-! ## Claim C10 -/

theorem addUnique_mem (l : List String) (x : String) (h : x ∈ l) :
    addUnique l x = l := by
  simp [addUnique, h]

theorem addUnique_not_mem (l : List String) (x : String) (h : x ∉ l) :
    addUnique l x = l ++ [x] := by
  simp [addUnique, h]

theorem addUnique_nodup (l : List String) (x : String) (h : l.Nodup) :
    (addUnique l x).Nodup := by
  by_cases hx : x ∈ l
  · simpa [addUnique, hx] using h
  · rw [addUnique_not_mem l x hx, List.nodup_append]
    exact ⟨h, List.nodup_singleton x, by simpa [List.disjoint_singleton]⟩

/-- C10: `add_actor`, `add_pending_event` and `add_pending_action` leave
their id list unchanged when the id is already present and append it exactly
once otherwise, so each preserves the duplicate-free invariant of the
active-actor, pending-event and pending-action id lists. -/
theorem c10_id_list_mutators (s : SimulationState) (x : String) :
    ((x ∈ s.active_actor_ids →
        (s.add_actor x).active_actor_ids = s.active_actor_ids) ∧
     (x ∉ s.active_actor_ids →
        (s.add_actor x).active_actor_ids = s.active_actor_ids ++ [x]) ∧
     (s.active_actor_ids.Nodup → (s.add_actor x).active_actor_ids.Nodup)) ∧
    ((x ∈ s.pending_event_ids →
        (s.add_pending_event x).pending_event_ids = s.pending_event_ids) ∧
     (x ∉ s.pending_event_ids →
        (s.add_pending_event x).pending_event_ids =
          s.pending_event_ids ++ [x]) ∧
     (s.pending_event_ids.Nodup →
        (s.add_pending_event x).pending_event_ids.Nodup)) ∧
    ((x ∈ s.pending_action_ids →
        (s.add_pending_action x).pending_action_ids = s.pending_action_ids) ∧
     (x ∉ s.pending_action_ids →
        (s.add_pending_action x).pending_action_ids =
          s.pending_action_ids ++ [x]) ∧
     (s.pending_action_ids.Nodup →
        (s.add_pending_action x).pending_action_ids.Nodup)) := by
  refine ⟨⟨?_, ?_, ?_⟩, ⟨?_, ?_, ?_⟩, ⟨?_, ?_, ?_⟩⟩
  · exact fun h => addUnique_mem _ _ h
  · exact fun h => addUnique_not_mem _ _ h
  · exact fun h => addUnique_nodup _ _ h
  · exact fun h => addUnique_mem _ _ h
  · exact fun h => addUnique_not_mem _ _ h
  · exact fun h => addUnique_nodup _ _ h
  · exact fun h => addUnique_mem _ _ h
  · exact fun h => addUnique_not_mem _ _ h
  · exact fun h => addUnique_nodup _ _ h

/-! ## Concrete instances and witnesses -/

/-- The fresh simulation at its first snapshot step, with `max_cycles = 1`. -/
def simAtSnapshot : SimulationState :=
  { simFresh with status := SimulationStatus.running
                  current_phase := SimulationPhase.snapshot
                  max_phases := 1 }

/-- A store holding only `simAtSnapshot`. -/
def stAtSnapshot : StepState :=
  { sims := [("sim-1", simAtSnapshot)], actions := [] }

/-- A single pending action. -/
def actPending : Action :=
  { id := "act-1", actor_id := "actor-1", simulation_id := "sim-1"
    intent := "wave", status := ActionStatus.pending
    outcome := none, success := none }

/-- An actions collection holding only `actPending`. -/
def astoreOne : AStore := [("act-1", actPending)]

/-- An already-seeded simulation with one pending action. -/
def simSeeded : SimulationState :=
  { simFresh with seeded := true
                  status := SimulationStatus.running
                  current_phase := SimulationPhase.action_resolution
                  pending_action_ids := ["act-1"] }

/-- A registered scenario that seeds nothing. -/
def seedNone : ScenarioSeed := { actor_ids := [], event_ids := [], actions := [] }

/-- An environment whose generative gateway is configured but failing. -/
def envGatewayDown : PhaseEnv :=
  { scenario := some (some seedNone)
    llm_configured := true
    llm_events := Except.error "connection reset"
    llm_resolutions := Except.error "connection reset" }

theorem astoreOne_wf : storeWF astoreOne := by
  intro k a h
  by_cases hk : "act-1" = k
  · subst hk
    simp only [astoreOne, getAssoc, if_pos rfl] at h
    cases h
    rfl
  · simp only [astoreOne, getAssoc, if_neg hk] at h
    cases h

/-- Witness: `c1_six_step_cycle` at a concrete fresh simulation. -/
theorem c1_six_step_cycle_witness :
    ∃ r1 r2 r3 r4 r5 r6 st1 st2 st3 st4 st5 st6,
      step defaultConfig envNoServices true stFresh "sim-1" none =
          (Except.ok r1, st1) ∧
      step defaultConfig envNoServices true st1 "sim-1" none =
          (Except.ok r2, st2) ∧
      step defaultConfig envNoServices true st2 "sim-1" none =
          (Except.ok r3, st3) ∧
      step defaultConfig envNoServices true st3 "sim-1" none =
          (Except.ok r4, st4) ∧
      step defaultConfig envNoServices true st4 "sim-1" none =
          (Except.ok r5, st5) ∧
      step defaultConfig envNoServices true st5 "sim-1" none =
          (Except.ok r6, st6) ∧
      r1.executed_phase = SimulationPhase.initialize' ∧
      r2.executed_phase = SimulationPhase.event_generation ∧
      r3.executed_phase = SimulationPhase.action_collection ∧
      r4.executed_phase = SimulationPhase.action_resolution ∧
      r5.executed_phase = SimulationPhase.world_update ∧
      r6.executed_phase = SimulationPhase.snapshot ∧
      r1.simulation.phase_number = 0 ∧
      r2.simulation.phase_number = 0 ∧
      r3.simulation.phase_number = 0 ∧
      r4.simulation.phase_number = 0 ∧
      r5.simulation.phase_number = 0 ∧
      r6.simulation.phase_number = 1 ∧
      r6.simulation.current_phase = SimulationPhase.event_generation ∧
      getAssoc st6.sims "sim-1" = some r6.simulation :=
  c1_six_step_cycle envNoServices envNoServices envNoServices envNoServices
    envNoServices envNoServices stFresh "sim-1" simFresh rfl rfl rfl rfl
    (by decide)

/-- Witness: `c2_snapshot_completion` at a concrete `max_cycles = 1`
simulation taking its first snapshot step. -/
theorem c2_snapshot_completion_witness :
    ∃ r st', step defaultConfig envNoServices true stAtSnapshot "sim-1"
        none = (Except.ok r, st') ∧
      r.executed_phase = SimulationPhase.snapshot ∧
      r.simulation.phase_number = simAtSnapshot.phase_number + 1 ∧
      getAssoc st'.sims "sim-1" = some r.simulation ∧
      (simAtSnapshot.max_phases ≤ simAtSnapshot.phase_number + 1 →
        r.simulation.status = SimulationStatus.completed ∧
        r.simulation.current_phase = SimulationPhase.completed ∧
        r.next_phase = SimulationPhase.event_generation ∧
        ∀ (env' : PhaseEnv) (flush_ok : Bool)
          (force : Option SimulationPhase),
          step defaultConfig env' flush_ok st' "sim-1" force =
            (Except.error StepError.terminalState, st')) :=
  c2_snapshot_completion envNoServices stAtSnapshot "sim-1" simAtSnapshot
    rfl rfl rfl

/-- Witness: `c3_step_serialization` at two concrete distinct ids. -/
theorem c3_step_serialization_witness :
    ¬((initLockState "sim-a" "sim-b").pc1 = StepPC.inHandler ∧
      (initLockState "sim-a" "sim-b").pc2 = StepPC.inHandler) ∧
    ReachableLock "sim-a" "sim-b" (doneLockState "sim-a" "sim-b") :=
  ⟨c3_step_serialization.1 "sim-a" "sim-b" _ ReachableLock.init,
   c3_step_serialization.2 "sim-a" "sim-b"⟩

/-- Witness: `c4_flush_failure_visible` at the concrete fresh simulation. -/
theorem c4_flush_failure_visible_witness :
    (step defaultConfig envNoServices false stFresh "sim-1" none).1 =
        Except.error StepError.persistenceFailed ∧
    (step defaultConfig envNoServices false stFresh "sim-1" none).2 =
        (step defaultConfig envNoServices true stFresh "sim-1" none).2 ∧
    ∃ r, (step defaultConfig envNoServices true stFresh "sim-1" none).1 =
        Except.ok r ∧
      getAssoc (step defaultConfig envNoServices false stFresh "sim-1"
          none).2.sims "sim-1" = some r.simulation :=
  c4_flush_failure_visible envNoServices stFresh "sim-1" simFresh rfl
    (by decide) (by decide)

/-- Witness: `c5_unexpected_phase` at the concrete fresh simulation. -/
theorem c5_unexpected_phase_witness :
    (∀ cfg : PhaseEngineConfig, cfg.enforce_phase_sequence = true →
      ((step cfg envNoServices true stFresh "sim-1" none).1 =
          Except.error StepError.unexpectedPhase ↔
        ((none : Option SimulationPhase).getD simFresh.current_phase ∉
            phaseOrder ∨
         (none : Option SimulationPhase).getD simFresh.current_phase ≠
           simFresh.current_phase))) ∧
    (∀ cfg : PhaseEngineConfig, cfg.enforce_phase_sequence = false →
      (step cfg envNoServices true stFresh "sim-1" none).1 ≠
        Except.error StepError.unexpectedPhase) :=
  c5_unexpected_phase envNoServices stFresh "sim-1" simFresh none rfl
    (by decide)

/-- Witness: `c6_backpressure` with 33 numbered publishes into a fresh
capacity-32 queue. -/
theorem c6_backpressure_witness :
    (((List.range 33).foldl publishToQueue (newSubscriberQueue Nat)).items =
        (List.range 33).drop 1 ∧
     ((List.range 33).foldl publishToQueue
        (newSubscriberQueue Nat)).items.length = streamQueueCapacity) ∧
    (∀ (q : BoundedQueue Nat) (e : Nat), 0 < q.maxsize →
       q.items.length = q.maxsize →
       (publishToQueue q e).items = q.items.tail ++ [e]) ∧
    (∀ (st : StreamState Nat) (simulation_id : String) (e : Nat),
       getAssoc st.subscribers simulation_id = none →
       publishStreamEvent st simulation_id e = st) :=
  c6_backpressure Nat (List.range 33) (by simp [streamQueueCapacity])

/-- Witness: `c7_gateway_failure_recovery` at a concrete seeded simulation
with one pending action and a failing gateway. -/
theorem c7_gateway_failure_recovery_witness :
    ((eventGenerationRun simSeeded astoreOne
        envGatewayDown).1.generated_event_ids = [] ∧
     (eventGenerationRun simSeeded astoreOne envGatewayDown).1.next_phase =
        SimulationPhase.action_collection ∧
     (eventGenerationRun simSeeded astoreOne envGatewayDown).1.simulation =
        simSeeded ∧
     (eventGenerationRun simSeeded astoreOne envGatewayDown).2 = astoreOne) ∧
    ((actionResolutionRun simSeeded astoreOne envGatewayDown).1.next_phase =
        SimulationPhase.world_update ∧
     (actionResolutionRun simSeeded astoreOne
        envGatewayDown).1.generated_event_ids = [] ∧
     ∀ (aid : String) (a : Action), aid ∈ simSeeded.pending_action_ids →
       getAssoc astoreOne aid = some a → a.status = ActionStatus.pending →
       aid ≠ "" →
       getAssoc (actionResolutionRun simSeeded astoreOne
           envGatewayDown).2 aid =
         some (a.complete
           ("Action completed (LLM error: " ++
             ("connection reset" : String).take 100 ++ ")") true)) :=
  c7_gateway_failure_recovery simSeeded astoreOne envGatewayDown seedNone
    "connection reset" "connection reset" rfl rfl rfl rfl rfl astoreOne_wf
    (by decide)

/-- Witness: `c9_update_missing_and_merge` at a concrete missing id and a
concrete present id. -/
theorem c9_update_missing_and_merge_witness :
    (repoUpdate ([] : Collection) "missing" [("name", JsonVal.str "x")] =
        (false, []) ∧
     simRepoUpdate ([] : Collection) "missing" [("name", JsonVal.str "x")]
        "t0" = (false, [])) ∧
    repoUpdate [("e1", [("id", JsonVal.str "e1")])] "e1"
        [("name", JsonVal.str "x")] =
      (true, putAssoc [("e1", [("id", JsonVal.str "e1")])] "e1"
        (mergeDict [("id", JsonVal.str "e1")] [("name", JsonVal.str "x")])) :=
  ⟨(c9_update_missing_and_merge [] "missing" [("name", JsonVal.str "x")]
      [] "t0").1 rfl,
   ((c9_update_missing_and_merge [("e1", [("id", JsonVal.str "e1")])] "e1"
      [("name", JsonVal.str "x")] [("id", JsonVal.str "e1")] "t0").2
      rfl).1⟩

/-- Witness: `c10_id_list_mutators` at the fresh simulation (empty lists)
and a concrete id. -/
theorem c10_id_list_mutators_witness :
    (simFresh.add_actor "actor-9").active_actor_ids =
        simFresh.active_actor_ids ++ ["actor-9"] ∧
    (simFresh.add_actor "actor-9").active_actor_ids.Nodup ∧
    (simFresh.add_pending_event "ev-9").pending_event_ids =
        simFresh.pending_event_ids ++ ["ev-9"] ∧
    (simFresh.add_pending_action "act-9").pending_action_ids =
        simFresh.pending_action_ids ++ ["act-9"] :=
  ⟨(c10_id_list_mutators simFresh "actor-9").1.2.1 (by decide),
   (c10_id_list_mutators simFresh "actor-9").1.2.2 (by decide),
   (c10_id_list_mutators simFresh "ev-9").2.1.2.1 (by decide),
   (c10_id_list_mutators simFresh "act-9").2.2.2.1 (by decide)⟩

end ScrAI
